import Mathlib

/-!
Verification of the ScanItKnowIt analysis-orchestration server.

This file gives a shallow embedding of the server-side logic of the
repository (the Express routes in `server/routes.ts` together with the
services they import: the Gemini-based analysis service, the web-grounding
fallback service `fallbackGrounding.ts`, the OCR/barcode helpers
`ocrFallback.ts`, the USDA helper `usdaFdc.ts`, the Reddit-sentiment
service `reddit.ts`, and the in-memory storage `MemStorage`), and proves
or refutes the behavioural claims made about it.

External network calls (Gemini model invocations, Open Food Facts /
Open Beauty Facts / USDA lookups, the simulated search API) are modelled
as oracles packaged in an `Env` structure; each embedded service records
which external adapters it invoked as a list of `Call` events, so that
claims about "the primary adapter is never invoked" or "the chain is
invoked at most once" become statements about those event lists.
-/

namespace ScanItKnowIt

/-! ## String helpers

Small executable embeddings of the JavaScript string operations
used by the services. -/

/-- Embeds JavaScript `String.prototype.toLowerCase` (the source only ever
lowercases ASCII keyword text before an `includes` test). -/
def lowerStr (s : String) : String := ⟨s.data.map Char.toLower⟩

/-- Substring occurrence over character lists. -/
def listContains (pat : List Char) : List Char → Bool
  | [] => pat.isEmpty
  | c :: rest => pat.isPrefixOf (c :: rest) || listContains pat rest

/-- Embeds JavaScript `String.prototype.includes`. -/
def strContains (s pat : String) : Bool := listContains pat.data s.data

/-- Embeds JavaScript `String.prototype.trim`. -/
def trimStr (s : String) : String :=
  ⟨((s.data.dropWhile Char.isWhitespace).reverse.dropWhile Char.isWhitespace).reverse⟩

/-- Split on every character satisfying the predicate (embeds
`String.prototype.split` with a single-character regex class). -/
def splitPred (p : Char → Bool) (acc : List Char) : List Char → List String
  | [] => [String.mk acc.reverse]
  | c :: rest =>
    if p c then String.mk acc.reverse :: splitPred p [] rest
    else splitPred p (c :: acc) rest

/-- Embeds `barcode.replace(/\D/g, "").split("").map(Number)` from
`validateBarcodeChecksum`: the digit characters of the string, as numbers. -/
def digitsOf (s : String) : List Nat :=
  (s.data.filter Char.isDigit).map (fun c => c.toNat - 48)

/-- Embeds `.replace(/\s/g, "")` (whitespace removal) from
`extractProductInfoFromOCR`. -/
def removeWhitespace (s : String) : String :=
  ⟨s.data.filter (fun c => !c.isWhitespace)⟩

/-! ## Barcode checksum (`ocrFallback.ts`) -/

/-- Alternating weighted sum with weights `a, b, a, b, ...`.  This embeds the
index loop `for i: sum += (i % 2 === 0) ? digits[i] * w : digits[i]` of
`validateBarcodeChecksum`, applied to the prefix of digits the loop ranges
over (weights `3,1,...` for UPC-A, `1,3,...` for EAN-13). -/
def altWeightSum (a b : Nat) : List Nat → Nat
  | [] => 0
  | x :: xs => a * x + altWeightSum b a xs

/-- Embeds `validateBarcodeChecksum` from `ocrFallback.ts`: strip non-digits,
require length 12 (UPC-A) or 13 (EAN-13), and compare the computed check
digit `(10 - sum % 10) % 10` with the final digit. -/
def validateBarcodeChecksum (barcode : String) : Bool :=
  let d := digitsOf barcode
  if d.length ≠ 12 ∧ d.length ≠ 13 then
    false
  else if d.length = 12 then
    let sum := altWeightSum 3 1 (d.take 11)
    let checkDigit := (10 - sum % 10) % 10
    decide (checkDigit = d.getD 11 0)
  else if d.length = 13 then
    let sum := altWeightSum 1 3 (d.take 12)
    let checkDigit := (10 - sum % 10) % 10
    decide (checkDigit = d.getD 12 0)
  else
    false

/-- Embeds the barcode part of `extractProductInfoFromOCR`: the result of the
regex search `ocrText.match(/(\d{12,13})|(\d{3}\s*\d{3}\s*\d{3}\s*\d{3})/g)`
is supplied as an oracle argument `barcodeMatch` (the first match, if any);
the function strips whitespace from it and keeps it only when the checksum
validates, otherwise the extracted barcode is `null`. -/
def barcodeFromOCRMatch (barcodeMatch : Option String) : Option String :=
  match barcodeMatch with
  | none => none
  | some m =>
    let potentialBarcode := removeWhitespace m
    if validateBarcodeChecksum potentialBarcode then some potentialBarcode else none

/-! ### Specification-side check digits

These two definitions follow the wording of the claim ("the last digit
equals the UPC-A (for 12 digits) or EAN-13 (for 13 digits) check digit
computed from the preceding digits"), written independently of the source:
the UPC-A check digit triples the digits in odd positions (1st, 3rd, ...)
and the EAN-13 check digit triples the digits in even positions
(2nd, 4th, ...), in both cases taking `(10 - sum mod 10) mod 10`. -/

/-- Sum of the digits in odd (1-indexed) positions: 1st, 3rd, 5th, ... -/
def sumOddPositions : List Nat → Nat
  | [] => 0
  | [x] => x
  | x :: _ :: xs => x + sumOddPositions xs

/-- Sum of the digits in even (1-indexed) positions: 2nd, 4th, 6th, ... -/
def sumEvenPositions : List Nat → Nat
  | [] => 0
  | [_] => 0
  | _ :: y :: xs => y + sumEvenPositions xs

/-- UPC-A check digit of the 11 leading digits (spec formulation). -/
def upcaCheckDigit (d : List Nat) : Nat :=
  (10 - (3 * sumOddPositions d + sumEvenPositions d) % 10) % 10

/-- EAN-13 check digit of the 12 leading digits (spec formulation). -/
def ean13CheckDigit (d : List Nat) : Nat :=
  (10 - (sumOddPositions d + 3 * sumEvenPositions d) % 10) % 10

theorem sumPositions_cons (x : Nat) (xs : List Nat) :
    sumOddPositions (x :: xs) = x + sumEvenPositions xs ∧
    sumEvenPositions (x :: xs) = sumOddPositions xs := by
  induction xs generalizing x with
  | nil => simp [sumOddPositions, sumEvenPositions]
  | cons y ys ih =>
    refine ⟨?_, ?_⟩
    · show sumOddPositions (x :: y :: ys) = x + sumEvenPositions (y :: ys)
      rw [show sumOddPositions (x :: y :: ys) = x + sumOddPositions ys from rfl,
        (ih y).2]
    · show sumEvenPositions (x :: y :: ys) = sumOddPositions (y :: ys)
      rw [show sumEvenPositions (x :: y :: ys) = y + sumEvenPositions ys from rfl,
        (ih y).1]

theorem altWeightSum_eq (a b : Nat) :
    ∀ l : List Nat, altWeightSum a b l = a * sumOddPositions l + b * sumEvenPositions l := by
  intro l
  induction l generalizing a b with
  | nil => simp [altWeightSum, sumOddPositions, sumEvenPositions]
  | cons x xs ih =>
    rw [show altWeightSum a b (x :: xs) = a * x + altWeightSum b a xs from rfl, ih b a,
      (sumPositions_cons x xs).1, (sumPositions_cons x xs).2]
    ring

/-! ## Data model

The record and facet-payload shapes of the server (`MemStorage` and the
JSON schemas produced by the services). -/

/-- The `extractedText` bag of a record.  The routes additionally read an
optional `barcode` member (`analysis.extractedText.barcode`), which is
absent (`none`) on every record the upload route creates. -/
structure ExtractedText where
  ingredients : String
  nutrition : String
  brand : String
  barcode : Option String := none
  deriving Repr, DecidableEq

/-- One entry of the ingredients facet (`ingredients_analysis` array). -/
structure IngredientSafety where
  name : String
  safety_status : String
  reason_with_source : String
  deriving Repr, DecidableEq

/-- The ingredients facet payload. -/
structure IngredientsData where
  ingredients_analysis : List IngredientSafety
  deriving Repr, DecidableEq

/-- One `{key, value}` entry of `compositionalDetails`. -/
structure CompositionDetail where
  key : String
  value : String
  deriving Repr, DecidableEq

/-- The composition facet payload. -/
structure CompositionData where
  productCategory : String
  netQuantity : Nat
  unitType : String
  calories : Nat
  totalFat : Nat
  totalProtein : Nat
  compositionalDetails : List CompositionDetail
  deriving Repr, DecidableEq

/-- One review entry of the sentiment facet. -/
structure RedditReview where
  title : String
  score : Nat
  url : String
  deriving Repr, DecidableEq

/-- The sentiment (reddit) facet payload. -/
structure RedditData where
  pros : List String
  cons : List String
  averageRating : Nat
  totalMentions : Nat
  reviews : List RedditReview
  deriving Repr, DecidableEq

/-- The features facet payload (its route is commented out in the source,
but the record keeps the slot). -/
structure FeaturesData where
  productCategory : String
  mainPurpose : String
  usageInstructions : String
  extraDetails : String
  deriving Repr, DecidableEq

/-- An analysis record as stored by `MemStorage` (`ProductAnalysis`). -/
structure ProductAnalysis where
  id : String
  productName : String
  productSummary : String
  extractedText : ExtractedText
  imageUrl : Option String
  isFallbackMode : Bool
  featuresData : Option FeaturesData
  ingredientsData : Option IngredientsData
  compositionData : Option CompositionData
  redditData : Option RedditData
  createdAt : Nat
  deriving Repr, DecidableEq

/-- A chat message as stored by `MemStorage` (`ChatMessage`). -/
structure ChatMessage where
  id : String
  analysisId : String
  message : String
  response : String
  createdAt : Nat
  deriving Repr, DecidableEq

/-- One candidate product returned by the identification step. -/
structure Candidate where
  productName : String
  extractedText : ExtractedText
  summary : String
  deriving Repr, DecidableEq

/-! ## External adapters as oracles -/

/-- The external calls an embedded service can make; the embedded routes
return the list of calls they performed so that claims about adapter
invocations become statements about these lists. -/
inductive Call where
  | gemVision
  | visionLocalFallback
  | gemIngredients
  | gemComposition
  | gemCompositionAlt
  | gemChat
  | gemChatAlt
  | redditAI
  | offLookup
  | obfLookup
  | usdaLookup
  | webSearch
  deriving Repr, DecidableEq

/-- Whether a call is to a primary (Gemini/AI) adapter, as opposed to the
fallback strategies (barcode databases, USDA, web grounding, the local
vision placeholder). -/
def Call.primaryAdapter : Call → Bool
  | gemVision | gemIngredients | gemComposition | gemCompositionAlt
  | gemChat | gemChatAlt | redditAI => true
  | _ => false

/-- Outcome of one Gemini model call whose reply is JSON-decoded into `α`:
either a reply was received (with `parsed = none` when no JSON object could
be extracted from it), or the call threw (with the flag telling whether the
error message contained "Rate limit exceeded"). -/
inductive GeminiOutcome (α : Type) where
  | content (parsed : Option α)
  | failure (rateLimited : Bool)
  deriving Repr, DecidableEq

/-- Outcome of one Gemini chat call (plain-text reply). -/
inductive ChatOutcome where
  | text (t : String)
  | failure (rateLimited : Bool)
  deriving Repr, DecidableEq

/-- Outcome of one Gemini vision call in `identifyProductAndExtractText`:
a reply containing a parseable JSON array, a reply containing a JSON array
that fails to parse, a reply containing no JSON array at all, or a thrown
error of one of the three kinds the service distinguishes. -/
inductive VisionOutcome where
  | contentArr (cs : List Candidate)
  | contentBad
  | contentNoArray
  | failModelNotFound
  | failOverloaded
  | failOther
  deriving Repr, DecidableEq

/-- The fields of the parsed Reddit-sentiment reply that
`analyzeRedditDataWithAI` reads (`averageRating = none` models a
non-number rating). -/
structure RedditRaw where
  pros : List String
  cons : List String
  averageRating : Option Nat
  deriving Repr, DecidableEq

/-- The fields of an Open Food Facts / Open Beauty Facts product that the
routes read.  `none` models an absent member; an empty string is falsy in
the source, handled by `truthyStr`. -/
structure OffProduct where
  product_name : Option String := none
  brands : Option String := none
  ingredients_text : Option String := none
  categories : Option String := none
  quantity : Option String := none
  deriving Repr, DecidableEq

/-- JavaScript truthiness of an optional string member: present and
non-empty. -/
def truthyStr : Option String → Option String
  | some s => if s = "" then none else some s
  | none => none

/-- One nutrient entry of a USDA FoodData Central food
(`nutrient.nutrient?.name || ""`, `nutrient.amount || 0`). -/
structure UsdaNutrient where
  name : String
  amount : Nat
  unitName : String
  deriving Repr, DecidableEq

/-- The fields of a USDA FoodData Central food that
`mapUSDAtoCompositionSchema` reads.  An empty `description` and a zero
`servingSize` model the falsy (absent) cases. -/
structure UsdaFood where
  description : String
  foodNutrients : List UsdaNutrient
  servingSize : Nat
  servingSizeUnit : String
  deriving Repr, DecidableEq

/-- The environment: one oracle per external adapter, plus the API-key flag
and the stream of UUIDs drawn by `generateUUID` (the `k`-th draw is
`uuid k`).  The barcode-database, USDA and Reddit services catch their own
network errors and return `null`/empty structures, so those oracles are
already `Option`-valued. -/
structure Env where
  geminiKey : Bool
  vision : VisionOutcome
  ingredientsModel : GeminiOutcome IngredientsData
  compositionModel : GeminiOutcome CompositionData
  compositionModelAlt : GeminiOutcome CompositionData
  chatModel : ChatOutcome
  chatModelAlt : ChatOutcome
  redditModel : Option RedditRaw
  off : Option OffProduct
  obf : Option OffProduct
  usda : Option UsdaFood
  uuid : Nat → String

/-! ## Storage (`MemStorage` in the source) -/

/-- Lookup in a JavaScript `Map` modelled as an insertion-ordered
association list. -/
def mapGet {α : Type} (k : String) : List (String × α) → Option α
  | [] => none
  | (k', v) :: rest => if k' = k then some v else mapGet k rest

/-- Embeds `Map.set`: replace in place when the key exists, append otherwise. -/
def mapSet {α : Type} (k : String) (v : α) : List (String × α) → List (String × α)
  | [] => [(k, v)]
  | (k', v') :: rest => if k' = k then (k, v) :: rest else (k', v') :: mapSet k v rest

/-- The in-memory store.  `chatMessages` is kept as the list of values of
the source's `Map` (its keys are fresh UUIDs that are never read, so the
values in insertion order are what `getChatMessages` iterates).  `uuidIdx` counts
how many UUIDs have been drawn from the environment's stream. -/
structure Storage where
  productAnalyses : List (String × ProductAnalysis)
  chatMessages : List ChatMessage
  uuidIdx : Nat
  deriving Repr, DecidableEq

/-- The fields of `InsertProductAnalysis` that the embedded routes pass. -/
structure InsertProductAnalysis where
  productName : String
  productSummary : String
  extractedText : ExtractedText
  imageUrl : Option String
  isFallbackMode : Bool := false
  deriving Repr, DecidableEq

/-- Embeds `MemStorage.createProductAnalysis`: draw a fresh UUID, build the
record with every facet slot `null`, and `Map.set` it. -/
def createProductAnalysis (env : Env) (st : Storage) (ins : InsertProductAnalysis) (now : Nat) :
    Storage × ProductAnalysis :=
  let id := env.uuid st.uuidIdx
  let pa : ProductAnalysis :=
    { id := id, productName := ins.productName, productSummary := ins.productSummary,
      extractedText := ins.extractedText, imageUrl := ins.imageUrl,
      isFallbackMode := ins.isFallbackMode,
      featuresData := none, ingredientsData := none, compositionData := none,
      redditData := none, createdAt := now }
  ({ st with productAnalyses := mapSet id pa st.productAnalyses, uuidIdx := st.uuidIdx + 1 }, pa)

/-- A `Partial<ProductAnalysis>` restricted to the fields the facet routes
actually pass.  `some x` means the member is present in the update object
with value `x` (so `some none` is an explicit `null` write, as in the
degraded-mode reddit path). -/
structure AnalysisUpdate where
  ingredientsData : Option (Option IngredientsData) := none
  compositionData : Option (Option CompositionData) := none
  redditData : Option (Option RedditData) := none
  deriving Repr, DecidableEq

/-- The object spread `{ ...existing, ...updates }`. -/
def applyUpdate (u : AnalysisUpdate) (a : ProductAnalysis) : ProductAnalysis :=
  { a with
    ingredientsData := u.ingredientsData.getD a.ingredientsData,
    compositionData := u.compositionData.getD a.compositionData,
    redditData := u.redditData.getD a.redditData }

/-- Embeds `MemStorage.updateProductAnalysis`. -/
def updateProductAnalysis (st : Storage) (id : String) (u : AnalysisUpdate) :
    Storage × Option ProductAnalysis :=
  match mapGet id st.productAnalyses with
  | none => (st, none)
  | some existing =>
    let updated := applyUpdate u existing
    ({ st with productAnalyses := mapSet id updated st.productAnalyses }, some updated)

/-- Embeds `MemStorage.createChatMessage`: draw a UUID and `Map.set` the
message (a fresh key appends, so the value list grows at the end). -/
def createChatMessage (env : Env) (st : Storage) (analysisId message response : String)
    (now : Nat) : Storage × ChatMessage :=
  let cm : ChatMessage :=
    { id := env.uuid st.uuidIdx, analysisId := analysisId, message := message,
      response := response, createdAt := now }
  ({ st with chatMessages := st.chatMessages ++ [cm], uuidIdx := st.uuidIdx + 1 }, cm)

/-- Insert a message into an already-placed list, after every element with
an equal-or-smaller timestamp. -/
def insertByTime (m : ChatMessage) : List ChatMessage → List ChatMessage
  | [] => [m]
  | y :: ys => if m.createdAt < y.createdAt then m :: y :: ys else y :: insertByTime m ys

/-- Embeds the stable JavaScript `Array.prototype.sort` with comparator
`(a, b) => a.createdAt - b.createdAt`: elements are placed in input order,
each landing after any equal-timestamp element already placed. -/
def sortByTime (l : List ChatMessage) : List ChatMessage :=
  l.foldl (fun acc m => insertByTime m acc) []

/-- Embeds `MemStorage.getChatMessages`: filter by `analysisId`, then sort
by `createdAt`. -/
def getChatMessages (st : Storage) (analysisId : String) : List ChatMessage :=
  sortByTime (st.chatMessages.filter (fun m => m.analysisId == analysisId))

/-! ## Web-grounding fallback service (`fallbackGrounding.ts`, first part) -/

/-- Upper-case hexadecimal digit. -/
def hexDigitChar (n : Nat) : Char :=
  if n < 10 then Char.ofNat (48 + n) else Char.ofNat (55 + n)

/-- Percent-encode one byte value as `%XY`. -/
def percentEncodeByte (b : Nat) : List Char :=
  [Char.ofNat 37, hexDigitChar (b / 16), hexDigitChar (b % 16)]

/-- UTF-8 byte values of one character. -/
def utf8Bytes (c : Char) : List Nat :=
  let n := c.toNat
  if n < 128 then [n]
  else if n < 2048 then [192 + n / 64, 128 + n % 64]
  else if n < 65536 then [224 + n / 4096, 128 + n / 64 % 64, 128 + n % 64]
  else [240 + n / 262144, 128 + n / 4096 % 64, 128 + n / 64 % 64, 128 + n % 64]

/-- Characters `encodeURIComponent` leaves unescaped. -/
def uriUnreserved (c : Char) : Bool :=
  c.isAlphanum || c.toNat ∈ [45, 95, 46, 33, 126, 42, 39, 40, 41]

/-- Embeds JavaScript `encodeURIComponent`: unreserved characters kept,
everything else percent-encoded byte-wise in UTF-8. -/
def encodeURIComponent (s : String) : String :=
  ⟨(s.data.map (fun c =>
      if uriUnreserved c then [c]
      else (utf8Bytes c |>.map percentEncodeByte).flatten)).flatten⟩

/-- One result of the placeholder search API. -/
structure SearchResult where
  snippet : String
  url : String
  deriving Repr, DecidableEq

/-- Embeds the placeholder `searchAPI` of `fallbackGrounding.ts`, which
returns a single simulated result echoing the query. -/
def searchAPI (query : String) : List SearchResult :=
  [⟨"This is a simulated search result for the query: " ++ query,
    "https://example.com/search?q=" ++ encodeURIComponent query⟩]

/-- Numeric value of a digit run. -/
def natOfDigitChars (ds : List Char) : Nat :=
  ds.foldl (fun n c => n * 10 + (c.toNat - 48)) 0

/-- Leftmost match of the regex family `/(\d+)\s*kw/i` used by
`analyzeCompositionFallback`: at each digit position take the maximal digit
run, skip whitespace, and require the lower-cased keyword to follow; on
failure retry from the next character (JavaScript leftmost-match
semantics — shortening the greedy `\d+` can never help because the
character after the shortened run would still be a digit). -/
def findNumBeforeKeyword (kw : List Char) : List Char → Option Nat
  | [] => none
  | c :: rest =>
    if c.isDigit then
      let ds := (c :: rest).takeWhile Char.isDigit
      let tail := ((c :: rest).dropWhile Char.isDigit).dropWhile Char.isWhitespace
      if kw.isPrefixOf (tail.map Char.toLower) then some (natOfDigitChars ds)
      else findNumBeforeKeyword kw rest
    else findNumBeforeKeyword kw rest

/-- String wrapper for `findNumBeforeKeyword`. -/
def matchNumBefore (kw s : String) : Option Nat :=
  findNumBeforeKeyword kw.data s.data

/-- Embeds `rawIngredients.split(/, | and /)`: split on each occurrence of
the two-character separator `", "` or the five-character separator
`" and "`, scanning left to right. -/
def splitCommaAnd (acc : List Char) : List Char → List String
  | [] => [String.mk acc.reverse]
  | ',' :: ' ' :: rest => String.mk acc.reverse :: splitCommaAnd [] rest
  | ' ' :: 'a' :: 'n' :: 'd' :: ' ' :: rest => String.mk acc.reverse :: splitCommaAnd [] rest
  | c :: rest => splitCommaAnd (c :: acc) rest

/-- The per-ingredient grounding step of `analyzeIngredientsFallback`.
`searchAPI` always returns exactly one simulated result, so the
`searchResults.length > 0` branch is always taken (the
"Search inconclusive." default is dead code). -/
def groundIngredient (name : String) : IngredientSafety :=
  let searchResults := searchAPI ("safety status of " ++ name ++ " and side effects")
  match searchResults with
  | topResult :: _ =>
    let status := if strContains (lowerStr topResult.snippet) "harmful" then "Harmful" else "Safe"
    ⟨name, status, "[Grounded] " ++ topResult.snippet ++ ". Source: " ++ topResult.url⟩
  | [] => ⟨name, "Moderate", "Search inconclusive."⟩

/-- Embeds `analyzeIngredientsFallback`: split the raw ingredients string,
keep pieces longer than 2 characters, and ground each via one simulated
web search. -/
def analyzeIngredientsFallback (a : ProductAnalysis) : IngredientsData × List Call :=
  let ingredientList :=
    (splitCommaAnd [] a.extractedText.ingredients.data).filter (fun i => i.length > 2)
  (⟨ingredientList.map groundIngredient⟩, ingredientList.map (fun _ => Call.webSearch))

/-- Embeds `analyzeCompositionFallback`: one simulated web search for
nutritional facts, with regex extraction of calories / fat / protein from
the top snippet and a `Source` detail. -/
def analyzeCompositionFallback (a : ProductAnalysis) : CompositionData × List Call :=
  let searchResults := searchAPI ("nutritional facts for " ++ a.productName)
  match searchResults with
  | topResult :: _ =>
    ({ productCategory := "General Food Item", netQuantity := 0, unitType := "g",
       calories := (matchNumBefore "calories" topResult.snippet).getD 0,
       totalFat := (matchNumBefore "fat" topResult.snippet).getD 0,
       totalProtein := (matchNumBefore "protein" topResult.snippet).getD 0,
       compositionalDetails := [⟨"Source", "Information sourced from: " ++ topResult.url⟩] },
     [Call.webSearch])
  | [] =>
    ({ productCategory := "General Food Item", netQuantity := 0, unitType := "g",
       calories := 0, totalFat := 0, totalProtein := 0, compositionalDetails := [] },
     [Call.webSearch])

/-! ## USDA FoodData Central mapping (`usdaFdc.ts`)

`searchUSDAFDC` catches every network error and returns `null`, so the
oracle is the `Option UsdaFood` in the environment; only the schema
mapping is embedded here. -/

/-- One step of the nutrient loop of `mapUSDAtoCompositionSchema`,
accumulating `(calories, totalFat, totalProtein, compositionalDetails)`. -/
def usdaNutrientStep (acc : Nat × Nat × Nat × List CompositionDetail) (n : UsdaNutrient) :
    Nat × Nat × Nat × List CompositionDetail :=
  let (c, f, p, ds) := acc
  let c := if n.name = "Energy" ∧ n.unitName = "kcal" then n.amount else c
  let p := if n.name = "Protein" then n.amount else p
  let f := if n.name = "Total lipid (fat)" then n.amount else f
  (c, f, p, ds ++ [⟨n.name, toString n.amount ++ " " ++ n.unitName⟩])

/-- Embeds `mapUSDAtoCompositionSchema` from `usdaFdc.ts`. -/
def mapUSDAtoCompositionSchema : Option UsdaFood → CompositionData
  | none =>
    { productCategory := "General/Unspecified", netQuantity := 0, unitType := "g",
      calories := 0, totalFat := 0, totalProtein := 0, compositionalDetails := [] }
  | some u =>
    let (c, f, p, ds) := u.foodNutrients.foldl usdaNutrientStep (0, 0, 0, [])
    let ds :=
      if u.servingSize ≠ 0 then
        ds ++ [⟨"Serving Size",
          toString u.servingSize ++ " " ++
            (if u.servingSizeUnit = "" then "g" else u.servingSizeUnit)⟩]
      else ds
    { productCategory := if u.description = "" then "General/Unspecified" else u.description,
      netQuantity := 100, unitType := "g",
      calories := c, totalFat := f, totalProtein := p, compositionalDetails := ds }

/-! ## Primary Gemini services (second part of `fallbackGrounding.ts`,
imported by the routes as `./services/openai`)

`USE_HUGGINGFACE` and `DEMO_MODE` are the constant `false` in the source,
so the HuggingFace and demo branches are omitted. -/

/-- The placeholder the ingredients service returns when the thrown error
message contains "Rate limit exceeded". -/
def rateLimitIngredientsData : IngredientsData :=
  ⟨[⟨"Rate Limit Reached", "Safe",
     "Google free tier limit reached. Please add credits to continue analysis or try again later."⟩]⟩

/-- Embeds `analyzeIngredients` (the primary ingredients adapter): missing
API key throws before the model call and the catch re-throws; a received
reply is JSON-decoded with an empty-schema default; a rate-limited failure
yields the placeholder; any other failure re-throws
"Failed to analyze ingredients". -/
def analyzeIngredients (env : Env) : Except Unit IngredientsData × List Call :=
  if env.geminiKey = false then (.error (), [])
  else
    match env.ingredientsModel with
    | .content (some parsed) => (.ok parsed, [.gemIngredients])
    | .content none => (.ok ⟨[]⟩, [.gemIngredients])
    | .failure true => (.ok rateLimitIngredientsData, [.gemIngredients])
    | .failure false => (.error (), [.gemIngredients])

/-- The all-default composition object the composition service returns on
parse failure or after its second model attempt fails. -/
def defaultCompositionData : CompositionData :=
  { productCategory := "", netQuantity := 0, unitType := "", calories := 0,
    totalFat := 0, totalProtein := 0, compositionalDetails := [] }

/-- The placeholder the composition service returns when rate limited. -/
def rateLimitCompositionData : CompositionData :=
  { productCategory := "Rate Limit", netQuantity := 0, unitType := "", calories := 0,
    totalFat := 0, totalProtein := 0,
    compositionalDetails :=
      [⟨"Rate Limit Notice",
        "Google free tier limit reached. Please add credits to continue analysis."⟩] }

/-- Embeds `analyzeComposition` (the primary composition adapter): unlike
the ingredients service it never throws — a missing key or a failing
second model attempt ends in the all-default object. -/
def analyzeComposition (env : Env) : CompositionData × List Call :=
  if env.geminiKey = false then (defaultCompositionData, [])
  else
    match env.compositionModel with
    | .content (some parsed) => (parsed, [.gemComposition])
    | .content none => (defaultCompositionData, [.gemComposition])
    | .failure true => (rateLimitCompositionData, [.gemComposition])
    | .failure false =>
      match env.compositionModelAlt with
      | .content (some parsed) => (parsed, [.gemComposition, .gemCompositionAlt])
      | .content none => (defaultCompositionData, [.gemComposition, .gemCompositionAlt])
      | .failure _ => (defaultCompositionData, [.gemComposition, .gemCompositionAlt])

/-- Default chat reply for an empty model response. -/
def chatEmptyText : String :=
  "I\u0027m sorry, I couldn\u0027t generate a response to that question."

/-- Chat reply when both model attempts fail. -/
def chatErrorText : String :=
  "Sorry, I encountered an error while processing your question. Please try again."

/-- Chat reply when the primary chat attempt is rate limited. -/
def chatRateLimitText : String :=
  "I\u0027ve reached the daily rate limit for Google's free tier. To continue using the AI chat feature, you can add credits to your Google account or try again tomorrow when the limit resets."

/-- Embeds `generateChatResponse` (conversational-QA adapter): primary
model, then a rate-limit message, then the alternate model, then a fixed
apology — total, never throws. -/
def generateChatResponse (env : Env) : String × List Call :=
  if env.geminiKey = false then (chatErrorText, [])
  else
    match env.chatModel with
    | .text t => (if t = "" then chatEmptyText else t, [.gemChat])
    | .failure true => (chatRateLimitText, [.gemChat])
    | .failure false =>
      match env.chatModelAlt with
      | .text t => (if t = "" then chatEmptyText else t, [.gemChat, .gemChatAlt])
      | .failure _ => (chatErrorText, [.gemChat, .gemChatAlt])

/-! ## Reddit sentiment service (`reddit.ts`) -/

/-- Empty sentiment structure returned on any failure or parse error. -/
def emptyRedditData : RedditData := ⟨[], [], 0, 0, []⟩

/-- Embeds `analyzeRedditDataWithAI`: one model call (recorded even when
the key is absent — the source passes `GEMINI_API_KEY || ""` and lets the
call fail), validated into at most 4 pros/cons and a rating clamped to
`[1, 5]` when numeric. -/
def analyzeRedditDataWithAI (env : Env) : RedditData × List Call :=
  match env.redditModel with
  | some parsed =>
    ({ pros := parsed.pros.take 4, cons := parsed.cons.take 4,
       averageRating :=
         match parsed.averageRating with
         | some r => min (max r 1) 5
         | none => 0,
       totalMentions := 0, reviews := [] }, [.redditAI])
  | none => (emptyRedditData, [.redditAI])

/-- Embeds `searchRedditReviews`: the AI analysis with `reviews` and
`totalMentions` forced to their placeholder defaults — total, never
throws. -/
def searchRedditReviews (env : Env) : RedditData × List Call :=
  let (aiResponse, calls) := analyzeRedditDataWithAI env
  ({ aiResponse with reviews := [], totalMentions := 0 }, calls)

/-! ## Identification service (`identifyProductAndExtractText`) -/

/-- The constant candidate produced by `analyzeImageWithFallback` in
`fallback.ts` (it resolves immediately and can never throw; its extra
`fallbackUsed` member is never read by the routes). -/
def fallbackAnalysisCandidate : Candidate :=
  { productName := "Fallback Analysis",
    extractedText :=
      { ingredients := "Fallback OCR: Unable to extract detailed ingredients without client-side processing",
        nutrition := "Fallback Analysis: Please check product packaging for nutrition facts",
        brand := "Unknown Brand" },
    summary := "This analysis used a fallback method due to primary AI service unavailability. For detailed information, please check the product packaging." }

/-- Candidate returned when the vision reply contains a JSON array that
fails to parse. -/
def analysisErrorCandidate : Candidate :=
  { productName := "Analysis Error",
    extractedText := { ingredients := "N/A", nutrition := "N/A", brand := "System" },
    summary := "Failed to parse the AI response. Please try again with a clearer image." }

/-- Candidate returned on a 404 model-not-found error. -/
def modelErrorCandidate : Candidate :=
  { productName := "Model Error",
    extractedText := { ingredients := "N/A", nutrition := "N/A", brand := "System" },
    summary := "The specified AI model is not available. Please contact the system administrator." }

/-- Candidate returned on a 503 overloaded error before the failure
threshold is reached. -/
def serviceOverloadedCandidate : Candidate :=
  { productName := "Service Overloaded",
    extractedText := { ingredients := "N/A", nutrition := "N/A", brand := "System" },
    summary := "The AI service is temporarily overloaded. Please try again in a few minutes." }

/-- Candidate returned on any other error before the failure threshold. -/
def apiErrorCandidate : Candidate :=
  { productName := "API Error",
    extractedText := { ingredients := "N/A", nutrition := "N/A", brand := "System" },
    summary := "The image analysis API failed to process the request." }

/-- The constant `MAX_GEMINI_FAILURES` of the source. -/
def MAX_GEMINI_FAILURES : Nat := 3

/-- Embeds `identifyProductAndExtractText` from the Gemini analysis
service.  `gfc` is the module-level `geminiFailureCount`, threaded in and
out; it is reset to 0 whenever a reply is received, and incremented by
every thrown error.  Every `throw` in the source body sits inside a `try`
whose `catch` returns a candidate list (`analyzeImageWithFallback` is a
constant and cannot throw, so the "Both primary and fallback analysis
methods failed" and "fallback also failed" paths are unreachable); the
embedded function is therefore total, and the route-level `catch` in
`routes.ts` that would set `isFallbackMode = true` can never run. -/
def identifyProductAndExtractText (env : Env) (gfc : Nat) :
    List Candidate × List Call × Nat :=
  if env.geminiKey = false then
    ([fallbackAnalysisCandidate], [.visionLocalFallback], gfc)
  else
    match env.vision with
    | .contentArr cs => (cs, [.gemVision], 0)
    | .contentBad => ([analysisErrorCandidate], [.gemVision], 0)
    | .contentNoArray => ([], [.gemVision], 0)
    | .failModelNotFound => ([modelErrorCandidate], [.gemVision], gfc + 1)
    | .failOverloaded =>
      if MAX_GEMINI_FAILURES ≤ gfc + 1 then
        ([fallbackAnalysisCandidate], [.gemVision, .visionLocalFallback], gfc + 1)
      else
        ([serviceOverloadedCandidate], [.gemVision], gfc + 1)
    | .failOther =>
      if MAX_GEMINI_FAILURES ≤ gfc + 1 then
        ([fallbackAnalysisCandidate], [.gemVision, .visionLocalFallback], gfc + 1)
      else
        ([apiErrorCandidate], [.gemVision], gfc + 1)

/-! ## Routes (`routes.ts`, fallback-mode variant) -/

/-- HTTP response of a route, with the JSON body attached to the `200`
case; the error cases carry the fixed error messages of the source. -/
inductive RouteResponse (α : Type) where
  | ok (body : α)
  | badRequest
  | notFound
  | serverError
  deriving Repr, DecidableEq

/-- The HTTP status code of a response. -/
def RouteResponse.status {α : Type} : RouteResponse α → Nat
  | .ok _ => 200
  | .badRequest => 400
  | .notFound => 404
  | .serverError => 500

/-- The database-hit branch of the fallback ingredients path: split
`ingredients_text` on `/[,;]/`, trim, drop empties, and mark everything
Safe with the fixed database-lookup reason. -/
def dbIngredientsAnalysis (t : String) : IngredientsData :=
  let pieces :=
    ((splitPred (fun c => c = ',' || c = ';') [] t.data).map trimStr).filter
      (fun i => i.length > 0)
  ⟨pieces.map (fun ingredient =>
    ⟨ingredient, "Safe", "Identified through Open Food/Beauty Facts database lookup"⟩)⟩

/-- The ingredients chain of `POST /api/analyze-ingredients`: in degraded
mode, choose the beauty or food database by whether the summary mentions
"cosmetic" (only when a barcode was captured), map a database hit with a
truthy `ingredients_text` to Safe-by-default entries, and web-ground
otherwise; in primary mode call the Gemini ingredients adapter, which can
throw.  The `try/catch` around the database lookup is dead code — both
lookups return `null` instead of throwing. -/
def ingredientsChain (env : Env) (a : ProductAnalysis) :
    Except Unit IngredientsData × List Call :=
  if a.isFallbackMode then
    match a.extractedText.barcode with
    | some _ =>
      let lookup :=
        if strContains (lowerStr a.productSummary) "cosmetic" then (env.obf, Call.obfLookup)
        else (env.off, Call.offLookup)
      match lookup.1 with
      | some productData =>
        match truthyStr productData.ingredients_text with
        | some t => (.ok (dbIngredientsAnalysis t), [lookup.2])
        | none =>
          let (d, calls) := analyzeIngredientsFallback a
          (.ok d, lookup.2 :: calls)
      | none =>
        let (d, calls) := analyzeIngredientsFallback a
        (.ok d, lookup.2 :: calls)
    | none =>
      let (d, calls) := analyzeIngredientsFallback a
      (.ok d, calls)
  else
    analyzeIngredients env

/-- Embeds `POST /api/analyze-ingredients`.  The request id is `none` for
a missing or empty (falsy) `analysisId`.  Returns the response, the new
store and the external calls made. -/
def analyzeIngredientsRoute (env : Env) (st : Storage) (analysisId : Option String) :
    RouteResponse IngredientsData × Storage × List Call :=
  match analysisId with
  | none => (.badRequest, st, [])
  | some id =>
    match mapGet id st.productAnalyses with
    | none => (.notFound, st, [])
    | some analysis =>
      match analysis.ingredientsData with
      | some d => (.ok d, st, [])
      | none =>
        match ingredientsChain env analysis with
        | (.error _, calls) => (.serverError, st, calls)
        | (.ok v, calls) =>
          let upd := updateProductAnalysis st id { ingredientsData := some (some v) }
          let body :=
            match upd.2 with
            | some u => u.ingredientsData.getD v
            | none => v
          (.ok body, upd.1, calls)

/-- The cosmetic-branch composition object built from an Open Beauty Facts
hit: zeroed numeric fields, `ml` unit, and the available details. -/
def cosmeticCompositionFromOBF (b : OffProduct) : CompositionData :=
  let details0 : List CompositionDetail := []
  let details1 :=
    match truthyStr b.quantity with
    | some q => details0 ++ [⟨"Quantity", q⟩]
    | none => details0
  let details2 :=
    match truthyStr b.ingredients_text with
    | some t => details1 ++ [⟨"Ingredients", t⟩]
    | none => details1
  let details3 :=
    match truthyStr b.categories with
    | some c => details2 ++ [⟨"Category", c⟩]
    | none => details2
  { productCategory := "Cosmetic/Topical", netQuantity := 0, unitType := "ml",
    calories := 0, totalFat := 0, totalProtein := 0, compositionalDetails := details3 }

/-- The composition chain of `POST /api/analyze-composition`: in degraded
mode the product category is inferred from the extracted data (nutrition
text mentioning "calories" → USDA; summary mentioning "cosmetic" or
"beauty" → Open Beauty Facts when a barcode exists; otherwise web
grounding); in primary mode the Gemini composition adapter runs and is
total.  The `try/catch` blocks around the lookups are dead code — the
lookups return `null` instead of throwing. -/
def compositionChain (env : Env) (a : ProductAnalysis) : CompositionData × List Call :=
  if a.isFallbackMode then
    if a.extractedText.nutrition ≠ "" ∧
        strContains (lowerStr a.extractedText.nutrition) "calories" then
      (mapUSDAtoCompositionSchema env.usda, [.usdaLookup])
    else if a.productSummary ≠ "" ∧
        (strContains (lowerStr a.productSummary) "cosmetic" ∨
          strContains (lowerStr a.productSummary) "beauty") then
      match a.extractedText.barcode with
      | some _ =>
        match env.obf with
        | some b => (cosmeticCompositionFromOBF b, [.obfLookup])
        | none =>
          let (d, calls) := analyzeCompositionFallback a
          (d, Call.obfLookup :: calls)
      | none => analyzeCompositionFallback a
    else
      analyzeCompositionFallback a
  else
    analyzeComposition env

/-- Embeds `POST /api/analyze-composition`. -/
def analyzeCompositionRoute (env : Env) (st : Storage) (analysisId : Option String) :
    RouteResponse CompositionData × Storage × List Call :=
  match analysisId with
  | none => (.badRequest, st, [])
  | some id =>
    match mapGet id st.productAnalyses with
    | none => (.notFound, st, [])
    | some analysis =>
      match analysis.compositionData with
      | some d => (.ok d, st, [])
      | none =>
        let (v, calls) := compositionChain env analysis
        let upd := updateProductAnalysis st id { compositionData := some (some v) }
        let body :=
          match upd.2 with
          | some u => u.compositionData.getD v
          | none => v
        (.ok body, upd.1, calls)

/-- Embeds `POST /api/analyze-reddit`: in degraded mode the facet value is
`null` ("zero-cost plan") and no adapter runs; the route may therefore
respond with a JSON `null` body, hence the `Option` payload. -/
def analyzeRedditRoute (env : Env) (st : Storage) (analysisId : Option String) :
    RouteResponse (Option RedditData) × Storage × List Call :=
  match analysisId with
  | none => (.badRequest, st, [])
  | some id =>
    match mapGet id st.productAnalyses with
    | none => (.notFound, st, [])
    | some analysis =>
      match analysis.redditData with
      | some d => (.ok (some d), st, [])
      | none =>
        let step : Option RedditData × List Call :=
          if analysis.isFallbackMode then (none, [])
          else
            let (d, calls) := searchRedditReviews env
            (some d, calls)
        let upd := updateProductAnalysis st id { redditData := some step.1 }
        let body : Option RedditData :=
          match upd.2 with
          | some u => match u.redditData with | some d => some d | none => step.1
          | none => step.1
        (.ok body, upd.1, step.2)

/-- The fixed degraded-mode chat reply of `POST /api/chat/:analysisId`. -/
def chatUnavailableText : String :=
  "Interactive Q&A is temporarily unavailable due to current system constraints."

/-- The JSON body of a successful chat turn. -/
structure ChatResponseBody where
  message : String
  response : String
  timestamp : Nat
  deriving Repr, DecidableEq

/-- Embeds `POST /api/chat/:analysisId`: empty (falsy) message → 400;
unknown id → 404; degraded records get the fixed unavailable reply without
any adapter call; the message is appended to the chat log either way. -/
def postChatRoute (env : Env) (st : Storage) (analysisId message : String) (now : Nat) :
    RouteResponse ChatResponseBody × Storage × List Call :=
  if message = "" then (.badRequest, st, [])
  else
    match mapGet analysisId st.productAnalyses with
    | none => (.notFound, st, [])
    | some analysis =>
      let reply :=
        if analysis.isFallbackMode then (chatUnavailableText, ([] : List Call))
        else generateChatResponse env
      let saved := createChatMessage env st analysisId message reply.1 now
      (.ok ⟨saved.2.message, saved.2.response, saved.2.createdAt⟩, saved.1, reply.2)

/-- Embeds `GET /api/chat/:analysisId` (always 200, empty list for an
unknown id). -/
def getChatHistoryRoute (st : Storage) (analysisId : String) : List ChatMessage :=
  getChatMessages st analysisId

/-- Embeds `GET /api/analysis/:analysisId`; it performs no writes. -/
def getAnalysisRoute (st : Storage) (analysisId : String) : RouteResponse ProductAnalysis :=
  match mapGet analysisId st.productAnalyses with
  | none => .notFound
  | some a => .ok a

/-- The uploaded multipart image. -/
structure ImageFile where
  mimetype : String
  base64 : String
  deriving Repr, DecidableEq

/-- One element of the JSON array returned by `POST /api/analyze-product`
(the stored record plus literal `null` deep-analysis fields). -/
structure AnalysisResponseItem where
  analysisId : String
  productName : String
  productSummary : String
  extractedText : ExtractedText
  imageUrl : Option String
  isFallbackMode : Bool
  featuresData : Option FeaturesData
  ingredientsData : Option IngredientsData
  compositionData : Option CompositionData
  redditData : Option RedditData
  deriving Repr, DecidableEq

/-- Stores one record per identification candidate and builds the response
array (the `analysisResults.map` + `Promise.all` of the route; the
synchronous body of each `createProductAnalysis` runs atomically in map
order, so the UUID draws happen in list order). -/
def storeCandidates (env : Env) (imageUrl : String) (isFallbackMode : Bool) (now : Nat) :
    Storage → List Candidate → Storage × List AnalysisResponseItem
  | st, [] => (st, [])
  | st, c :: cs =>
    let ins := createProductAnalysis env st
      { productName := c.productName, productSummary := c.summary,
        extractedText := c.extractedText, imageUrl := some imageUrl,
        isFallbackMode := isFallbackMode } now
    let rest := storeCandidates env imageUrl isFallbackMode now ins.1 cs
    (rest.1,
      { analysisId := ins.2.id, productName := ins.2.productName,
        productSummary := ins.2.productSummary, extractedText := ins.2.extractedText,
        imageUrl := ins.2.imageUrl, isFallbackMode := ins.2.isFallbackMode,
        featuresData := none, ingredientsData := none, compositionData := none,
        redditData := none } :: rest.2)

/-- Embeds `POST /api/analyze-product`.  `gfc` is the identification
service's failure counter, threaded through.  Because the embedded
`identifyProductAndExtractText` is total (the service converts its own
failures into placeholder candidates), the route-level `catch` that would
run the OCR fallback and set `isFallbackMode = true` is unreachable, so
every stored record gets `isFallbackMode = false`. -/
def analyzeProductRoute (env : Env) (st : Storage) (gfc : Nat) (image : Option ImageFile)
    (now : Nat) :
    RouteResponse (List AnalysisResponseItem) × Storage × Nat × List Call :=
  match image with
  | none => (.badRequest, st, gfc, [])
  | some img =>
    let imageUrl := "data:" ++ img.mimetype ++ ";base64," ++ img.base64
    let ident := identifyProductAndExtractText env gfc
    let stored := storeCandidates env imageUrl false now st ident.1
    (.ok stored.2, stored.1, ident.2.2, ident.2.1)

/-! ## Store lemmas -/

theorem mapGet_mapSet_self {α : Type} (k : String) (v : α) (m : List (String × α)) :
    mapGet k (mapSet k v m) = some v := by
  induction m with
  | nil => simp [mapGet, mapSet]
  | cons p rest ih =>
    obtain ⟨k', v'⟩ := p
    by_cases h : k' = k <;> simp [mapGet, mapSet, h, ih]

theorem mapGet_mapSet_ne {α : Type} (k k' : String) (v : α) (m : List (String × α))
    (h : k ≠ k') : mapGet k' (mapSet k v m) = mapGet k' m := by
  induction m with
  | nil => simp [mapGet, mapSet, h]
  | cons p rest ih =>
    obtain ⟨k'', v''⟩ := p
    by_cases hk : k'' = k
    · subst hk
      simp [mapGet, mapSet, h]
    · simp [mapGet, mapSet, hk, ih]

theorem mapSet_self {α : Type} (k : String) (a : α) :
    ∀ m : List (String × α), mapGet k m = some a → mapSet k a m = m := by
  intro m
  induction m with
  | nil => intro h; simp [mapGet] at h
  | cons p rest ih =>
    obtain ⟨k', v'⟩ := p
    intro h
    by_cases hk : k' = k
    · subst hk
      have hv : v' = a := by simpa [mapGet] using h
      subst hv
      simp [mapSet]
    · simp only [mapGet, if_neg hk] at h
      simp [mapSet, hk, ih h]

theorem mapSet_append_of_fresh {α : Type} (k : String) (v : α) :
    ∀ m : List (String × α), mapGet k m = none → mapSet k v m = m ++ [(k, v)] := by
  intro m
  induction m with
  | nil => intro _; simp [mapSet]
  | cons p rest ih =>
    obtain ⟨k', v'⟩ := p
    intro h
    by_cases hk : k' = k
    · simp [mapGet, hk] at h
    · simp only [mapGet, if_neg hk] at h
      simp [mapSet, hk, ih h]

theorem mapGet_append_of_none {α : Type} (k : String) (m2 : List (String × α)) :
    ∀ m : List (String × α), mapGet k m = none → mapGet k (m ++ m2) = mapGet k m2 := by
  intro m
  induction m with
  | nil => intro _; simp
  | cons p rest ih =>
    obtain ⟨k', v'⟩ := p
    intro h
    by_cases hk : k' = k
    · simp [mapGet, hk] at h
    · simp only [mapGet, if_neg hk] at h
      simpa [mapGet, hk] using ih h

/-! ## Stable-sort lemmas (for the chat log) -/

theorem insertByTime_append (m : ChatMessage) :
    ∀ acc : List ChatMessage, (∀ y ∈ acc, ¬ m.createdAt < y.createdAt) →
      insertByTime m acc = acc ++ [m] := by
  intro acc
  induction acc with
  | nil => intro _; simp [insertByTime]
  | cons y ys ih =>
    intro h
    have hy : ¬ m.createdAt < y.createdAt := h y (by simp)
    simp only [insertByTime, if_neg hy, List.cons_append, List.cons.injEq, true_and]
    exact ih (fun z hz => h z (by simp [hz]))

theorem sortByTime_of_sorted :
    ∀ l : List ChatMessage, l.Pairwise (fun a b => a.createdAt ≤ b.createdAt) →
      sortByTime l = l := by
  intro l
  induction l using List.reverseRecOn with
  | nil => intro _; simp [sortByTime]
  | append_singleton l m ih =>
    intro h
    rw [List.pairwise_append] at h
    obtain ⟨hl, _, hlm⟩ := h
    have hfold : sortByTime (l ++ [m]) = insertByTime m (sortByTime l) := by
      simp [sortByTime, List.foldl_append]
    rw [hfold, ih hl, insertByTime_append]
    intro y hy
    exact Nat.not_lt.mpr (hlm y hy m (by simp))

/-! ## Facet-route frame lemmas

`facetEvolved a a'` says the record evolved the way the orchestrator is
allowed to: every non-facet field is unchanged and each facet slot is
either unchanged or was previously `null` (so a populated slot is never
reset and never overwritten). -/

def facetEvolved (a a' : ProductAnalysis) : Prop :=
  a'.id = a.id ∧ a'.productName = a.productName ∧ a'.productSummary = a.productSummary ∧
  a'.extractedText = a.extractedText ∧ a'.imageUrl = a.imageUrl ∧
  a'.isFallbackMode = a.isFallbackMode ∧ a'.featuresData = a.featuresData ∧
  a'.createdAt = a.createdAt ∧
  (∀ v, a.ingredientsData = some v → a'.ingredientsData = some v) ∧
  (∀ v, a.compositionData = some v → a'.compositionData = some v) ∧
  (∀ v, a.redditData = some v → a'.redditData = some v)

theorem facetEvolved_refl (a : ProductAnalysis) : facetEvolved a a := by
  refine ⟨rfl, rfl, rfl, rfl, rfl, rfl, rfl, rfl, ?_, ?_, ?_⟩ <;> intro v h <;> exact h

theorem applyUpdate_evolved_ing (a : ProductAnalysis) (v : IngredientsData)
    (hempty : a.ingredientsData = none) :
    facetEvolved a (applyUpdate { ingredientsData := some (some v) } a) := by
  refine ⟨rfl, rfl, rfl, rfl, rfl, rfl, rfl, rfl, ?_, ?_, ?_⟩ <;> intro w hw
  · rw [hempty] at hw; cases hw
  · exact hw
  · exact hw

theorem applyUpdate_evolved_comp (a : ProductAnalysis) (v : CompositionData)
    (hempty : a.compositionData = none) :
    facetEvolved a (applyUpdate { compositionData := some (some v) } a) := by
  refine ⟨rfl, rfl, rfl, rfl, rfl, rfl, rfl, rfl, ?_, ?_, ?_⟩ <;> intro w hw
  · exact hw
  · rw [hempty] at hw; cases hw
  · exact hw

theorem applyUpdate_evolved_red (a : ProductAnalysis) (v : Option RedditData)
    (hempty : a.redditData = none) :
    facetEvolved a (applyUpdate { redditData := some v } a) := by
  refine ⟨rfl, rfl, rfl, rfl, rfl, rfl, rfl, rfl, ?_, ?_, ?_⟩ <;> intro w hw
  · exact hw
  · exact hw
  · rw [hempty] at hw; cases hw

/-- Common step for all three facet routes: writing one facet of the
record stored at `rid` preserves every record up to `facetEvolved`. -/
theorem mapSet_update_evolves (st : Storage) (rid id : String)
    (analysis a a' : ProductAnalysis)
    (hget : mapGet rid st.productAnalyses = some analysis)
    (h : mapGet id st.productAnalyses = some a)
    (hev : facetEvolved analysis a') :
    ∃ b, mapGet id (mapSet rid a' st.productAnalyses) = some b ∧ facetEvolved a b := by
  by_cases hid : rid = id
  · subst hid
    rw [hget] at h
    cases h
    exact ⟨a', mapGet_mapSet_self rid a' st.productAnalyses, hev⟩
  · exact ⟨a, by rw [mapGet_mapSet_ne rid id a' st.productAnalyses hid]; exact h,
      facetEvolved_refl a⟩

theorem analyzeIngredientsRoute_evolves (env : Env) (st : Storage) (rid : Option String)
    (id : String) (a : ProductAnalysis) (h : mapGet id st.productAnalyses = some a) :
    ∃ a', mapGet id (analyzeIngredientsRoute env st rid).2.1.productAnalyses = some a' ∧
      facetEvolved a a' := by
  match rid with
  | none => exact ⟨a, h, facetEvolved_refl a⟩
  | some rid' =>
    simp only [analyzeIngredientsRoute]
    cases hget : mapGet rid' st.productAnalyses with
    | none =>
      try dsimp only
      exact ⟨a, h, facetEvolved_refl a⟩
    | some analysis =>
      try dsimp only
      cases hslot : analysis.ingredientsData with
      | some d =>
        try dsimp only
        exact ⟨a, h, facetEvolved_refl a⟩
      | none =>
        try dsimp only
        rcases hchain : ingredientsChain env analysis with ⟨r, calls⟩
        cases r with
        | error e =>
          try dsimp only
          exact ⟨a, h, facetEvolved_refl a⟩
        | ok v =>
          try dsimp only
          simp only [updateProductAnalysis, hget]
          try dsimp only
          exact mapSet_update_evolves st rid' id analysis a _ hget h
            (applyUpdate_evolved_ing analysis v hslot)

theorem analyzeCompositionRoute_evolves (env : Env) (st : Storage) (rid : Option String)
    (id : String) (a : ProductAnalysis) (h : mapGet id st.productAnalyses = some a) :
    ∃ a', mapGet id (analyzeCompositionRoute env st rid).2.1.productAnalyses = some a' ∧
      facetEvolved a a' := by
  match rid with
  | none => exact ⟨a, h, facetEvolved_refl a⟩
  | some rid' =>
    simp only [analyzeCompositionRoute]
    cases hget : mapGet rid' st.productAnalyses with
    | none =>
      try dsimp only
      exact ⟨a, h, facetEvolved_refl a⟩
    | some analysis =>
      try dsimp only
      cases hslot : analysis.compositionData with
      | some d =>
        try dsimp only
        exact ⟨a, h, facetEvolved_refl a⟩
      | none =>
        try dsimp only
        simp only [updateProductAnalysis, hget]
        try dsimp only
        exact mapSet_update_evolves st rid' id analysis a _ hget h
          (applyUpdate_evolved_comp analysis (compositionChain env analysis).1 hslot)

theorem analyzeRedditRoute_evolves (env : Env) (st : Storage) (rid : Option String)
    (id : String) (a : ProductAnalysis) (h : mapGet id st.productAnalyses = some a) :
    ∃ a', mapGet id (analyzeRedditRoute env st rid).2.1.productAnalyses = some a' ∧
      facetEvolved a a' := by
  match rid with
  | none => exact ⟨a, h, facetEvolved_refl a⟩
  | some rid' =>
    simp only [analyzeRedditRoute]
    cases hget : mapGet rid' st.productAnalyses with
    | none =>
      try dsimp only
      exact ⟨a, h, facetEvolved_refl a⟩
    | some analysis =>
      try dsimp only
      cases hslot : analysis.redditData with
      | some d =>
        try dsimp only
        exact ⟨a, h, facetEvolved_refl a⟩
      | none =>
        try dsimp only
        simp only [updateProductAnalysis, hget]
        try dsimp only
        exact mapSet_update_evolves st rid' id analysis a _ hget h
          (applyUpdate_evolved_red analysis _ hslot)

/-! ## Degraded-mode call purity -/

/-- No call in the list goes to a primary (Gemini/AI) adapter. -/
def noPrimaryCalls (calls : List Call) : Prop :=
  ∀ c ∈ calls, c.primaryAdapter = false

theorem analyzeIngredientsFallback_calls (a : ProductAnalysis) :
    ∀ c ∈ (analyzeIngredientsFallback a).2, c = Call.webSearch := by
  intro c hc
  simp only [analyzeIngredientsFallback, List.mem_map] at hc
  obtain ⟨_, _, hx⟩ := hc
  exact hx.symm

theorem ingredientsChain_degraded_ok (env : Env) (a : ProductAnalysis)
    (hfb : a.isFallbackMode = true) :
    ∃ v, (ingredientsChain env a).1 = Except.ok v := by
  unfold ingredientsChain
  simp only [hfb, if_true]
  repeat' split
  all_goals exact ⟨_, rfl⟩

theorem ingredientsChain_degraded_calls (env : Env) (a : ProductAnalysis)
    (hfb : a.isFallbackMode = true) :
    noPrimaryCalls (ingredientsChain env a).2 := by
  have hws := analyzeIngredientsFallback_calls a
  simp only [noPrimaryCalls]
  intro c hc
  unfold ingredientsChain at hc
  simp only [hfb, if_true] at hc
  repeat' split at hc
  all_goals try dsimp only at hc
  all_goals try
    simp only [List.mem_cons, List.mem_singleton, List.not_mem_nil, or_false] at hc
  all_goals try (rcases hc with hc | hc)
  all_goals
    first
      | rfl
      | (subst hc; rfl)
      | (have hw := hws c hc; subst hw; rfl)

theorem compositionChain_degraded_calls (env : Env) (a : ProductAnalysis)
    (hfb : a.isFallbackMode = true) :
    noPrimaryCalls (compositionChain env a).2 := by
  simp only [noPrimaryCalls]
  intro c hc
  unfold compositionChain at hc
  simp only [hfb, if_true, analyzeCompositionFallback, searchAPI] at hc
  repeat' split at hc
  all_goals try dsimp only at hc
  all_goals try
    simp only [List.mem_cons, List.mem_singleton, List.not_mem_nil, or_false] at hc
  all_goals try (rcases hc with hc | hc)
  all_goals first | rfl | (subst hc; rfl)

/-! ## Facet request traces -/

/-- One of the three lazily-computed facets. -/
inductive FacetReq where
  | ingredients
  | composition
  | reddit
  deriving Repr, DecidableEq

/-- Run one facet endpoint for `id`, keeping the store and the calls. -/
def runFacet (env : Env) (st : Storage) (id : String) : FacetReq → Storage × List Call
  | .ingredients => (analyzeIngredientsRoute env st (some id)).2
  | .composition => (analyzeCompositionRoute env st (some id)).2
  | .reddit => (analyzeRedditRoute env st (some id)).2

/-- Run a whole sequence of facet requests for `id`, accumulating the
external calls. -/
def runFacetTrace (env : Env) (id : String) : Storage → List FacetReq → Storage × List Call
  | st, [] => (st, [])
  | st, r :: rs =>
    let step := runFacet env st id r
    let rest := runFacetTrace env id step.1 rs
    (rest.1, step.2 ++ rest.2)

theorem analyzeIngredientsRoute_calls (env : Env) (st : Storage) (id : String)
    (a : ProductAnalysis) (h : mapGet id st.productAnalyses = some a) :
    (analyzeIngredientsRoute env st (some id)).2.2 = [] ∨
    (analyzeIngredientsRoute env st (some id)).2.2 = (ingredientsChain env a).2 := by
  simp only [analyzeIngredientsRoute, h]
  try dsimp only
  cases a.ingredientsData with
  | some d => left; rfl
  | none =>
    rcases hchain : ingredientsChain env a with ⟨r, calls⟩
    cases r with
    | error e => right; rfl
    | ok v => right; rfl

theorem analyzeCompositionRoute_calls (env : Env) (st : Storage) (id : String)
    (a : ProductAnalysis) (h : mapGet id st.productAnalyses = some a) :
    (analyzeCompositionRoute env st (some id)).2.2 = [] ∨
    (analyzeCompositionRoute env st (some id)).2.2 = (compositionChain env a).2 := by
  simp only [analyzeCompositionRoute, h]
  try dsimp only
  cases a.compositionData with
  | some d => left; rfl
  | none => right; rfl

theorem analyzeRedditRoute_degraded_calls (env : Env) (st : Storage) (id : String)
    (a : ProductAnalysis) (h : mapGet id st.productAnalyses = some a)
    (hfb : a.isFallbackMode = true) :
    (analyzeRedditRoute env st (some id)).2.2 = [] := by
  simp only [analyzeRedditRoute, h]
  try dsimp only
  cases a.redditData with
  | some d => rfl
  | none => simp [hfb]

/-- One degraded-mode facet request makes no primary-adapter call and
keeps the record degraded. -/
theorem runFacet_degraded (env : Env) (st : Storage) (id : String) (a : ProductAnalysis)
    (r : FacetReq) (h : mapGet id st.productAnalyses = some a)
    (hfb : a.isFallbackMode = true) :
    noPrimaryCalls (runFacet env st id r).2 ∧
      ∃ a', mapGet id (runFacet env st id r).1.productAnalyses = some a' ∧
        a'.isFallbackMode = true := by
  cases r with
  | ingredients =>
    refine ⟨?_, ?_⟩
    · show noPrimaryCalls (analyzeIngredientsRoute env st (some id)).2.2
      rcases analyzeIngredientsRoute_calls env st id a h with hcalls | hcalls
      · rw [hcalls]; intro c hc; cases hc
      · rw [hcalls]; exact ingredientsChain_degraded_calls env a hfb
    · obtain ⟨a', ha', hev⟩ := analyzeIngredientsRoute_evolves env st (some id) id a h
      obtain ⟨-, -, -, -, -, hflag, -⟩ := hev
      exact ⟨a', ha', hflag.trans hfb⟩
  | composition =>
    refine ⟨?_, ?_⟩
    · show noPrimaryCalls (analyzeCompositionRoute env st (some id)).2.2
      rcases analyzeCompositionRoute_calls env st id a h with hcalls | hcalls
      · rw [hcalls]; intro c hc; cases hc
      · rw [hcalls]; exact compositionChain_degraded_calls env a hfb
    · obtain ⟨a', ha', hev⟩ := analyzeCompositionRoute_evolves env st (some id) id a h
      obtain ⟨-, -, -, -, -, hflag, -⟩ := hev
      exact ⟨a', ha', hflag.trans hfb⟩
  | reddit =>
    refine ⟨?_, ?_⟩
    · show noPrimaryCalls (analyzeRedditRoute env st (some id)).2.2
      rw [analyzeRedditRoute_degraded_calls env st id a h hfb]
      intro c hc
      cases hc
    · obtain ⟨a', ha', hev⟩ := analyzeRedditRoute_evolves env st (some id) id a h
      obtain ⟨-, -, -, -, -, hflag, -⟩ := hev
      exact ⟨a', ha', hflag.trans hfb⟩

/-- C1: for every analysis record whose `isFallbackMode` (`isDegradedMode`)
flag is true, every subsequent facet request (analyze-ingredients,
analyze-composition, analyze-reddit) for that record never invokes a
primary AI adapter (`analyzeIngredients`, `analyzeComposition`,
`searchRedditReviews`): across any sequence of facet requests for the
record, only fallback strategies (barcode-database lookup, USDA, web
grounding, or the null result) are invoked. -/
theorem C1_degraded_propagation (env : Env) (st : Storage) (id : String)
    (a : ProductAnalysis) (reqs : List FacetReq)
    (h : mapGet id st.productAnalyses = some a) (hfb : a.isFallbackMode = true) :
    noPrimaryCalls (runFacetTrace env id st reqs).2 := by
  induction reqs generalizing st a with
  | nil => intro c hc; cases hc
  | cons r rs ih =>
    obtain ⟨hstep, a', ha', hfb'⟩ := runFacet_degraded env st id a r h hfb
    intro c hc
    simp only [runFacetTrace] at hc
    rcases List.mem_append.mp hc with hc | hc
    · exact hstep c hc
    · exact ih _ a' ha' hfb' c hc

/-! ## Sample fixtures used by the witnesses and counterexamples -/

/-- A benign environment: key present, every model replies, injective
UUID stream. -/
def sampleEnv : Env :=
  { geminiKey := true, vision := .contentNoArray,
    ingredientsModel := .content (some ⟨[⟨"Sugar", "Moderate", "High sugar content"⟩]⟩),
    compositionModel := .content (some
      { productCategory := "Snack Bar", netQuantity := 42, unitType := "g", calories := 190,
        totalFat := 6, totalProtein := 4, compositionalDetails := [] }),
    compositionModelAlt := .content none,
    chatModel := .text "It contains sugar.", chatModelAlt := .text "ok",
    redditModel := some { pros := ["Tasty"], cons := ["Pricey"], averageRating := some 4 },
    off := none, obf := none, usda := none,
    uuid := fun n => "uuid-" ++ toString n }

/-- A degraded-mode record with every facet slot empty. -/
def sampleDegradedRecord : ProductAnalysis :=
  { id := "deg1", productName := "Granola Bar", productSummary := "A snack bar",
    extractedText := { ingredients := "oats, sugar", nutrition := "190 calories", brand := "NV" },
    imageUrl := some "data:image/jpeg;base64,QUJD", isFallbackMode := true,
    featuresData := none, ingredientsData := none, compositionData := none,
    redditData := none, createdAt := 0 }

/-- A store holding only the degraded record. -/
def sampleDegradedStore : Storage := ⟨[("deg1", sampleDegradedRecord)], [], 0⟩

/-- A primary-mode record with every facet slot empty. -/
def samplePrimaryRecord : ProductAnalysis :=
  { sampleDegradedRecord with id := "pri1", isFallbackMode := false }

/-- A store holding only the primary-mode record. -/
def samplePrimaryStore : Storage := ⟨[("pri1", samplePrimaryRecord)], [], 0⟩

/-- The benign environment with a non-rate-limited ingredients-adapter
failure. -/
def ingFailEnv : Env := { sampleEnv with ingredientsModel := .failure false }

/-- C1 witness: a concrete degraded record run through a concrete facet
trace. -/
theorem C1_degraded_propagation_witness :
    mapGet "deg1" sampleDegradedStore.productAnalyses = some sampleDegradedRecord ∧
    sampleDegradedRecord.isFallbackMode = true ∧
    noPrimaryCalls (runFacetTrace sampleEnv "deg1" sampleDegradedStore
      [FacetReq.ingredients, FacetReq.composition, FacetReq.reddit, FacetReq.ingredients]).2 :=
  ⟨rfl, rfl,
    C1_degraded_propagation sampleEnv sampleDegradedStore "deg1" sampleDegradedRecord
      [FacetReq.ingredients, FacetReq.composition, FacetReq.reddit, FacetReq.ingredients]
      rfl rfl⟩

/-! ## C5: monotonic facet slots -/

/-- C5: for every record, a facet slot (`ingredientsData`,
`compositionData`, `redditData`) that has been populated with a non-null
value is never reset to null and never overwritten with a different value
by any subsequent facet request (the read routes take the store only as
input, so they cannot write at all); `facetEvolved` additionally states
that any slot change starts from a null slot (null-to-value writes only)
and that every non-facet field is untouched. -/
theorem C5_monotonic_facet_slots (env : Env) (st : Storage) (rid : Option String)
    (id : String) (a : ProductAnalysis) (h : mapGet id st.productAnalyses = some a) :
    (∃ a', mapGet id (analyzeIngredientsRoute env st rid).2.1.productAnalyses = some a' ∧
      facetEvolved a a') ∧
    (∃ a', mapGet id (analyzeCompositionRoute env st rid).2.1.productAnalyses = some a' ∧
      facetEvolved a a') ∧
    (∃ a', mapGet id (analyzeRedditRoute env st rid).2.1.productAnalyses = some a' ∧
      facetEvolved a a') :=
  ⟨analyzeIngredientsRoute_evolves env st rid id a h,
   analyzeCompositionRoute_evolves env st rid id a h,
   analyzeRedditRoute_evolves env st rid id a h⟩

/-- A record with an already-populated ingredients slot. -/
def samplePopulatedRecord : ProductAnalysis :=
  { samplePrimaryRecord with
    id := "pop1",
    ingredientsData := some ⟨[⟨"Oats", "Safe", "whole grain"⟩]⟩ }

/-- A store holding only the populated record. -/
def samplePopulatedStore : Storage := ⟨[("pop1", samplePopulatedRecord)], [], 0⟩

/-- C5 witness: the populated record under a concrete facet request. -/
theorem C5_monotonic_facet_slots_witness :
    (∃ a', mapGet "pop1" (analyzeIngredientsRoute sampleEnv samplePopulatedStore
        (some "pop1")).2.1.productAnalyses = some a' ∧
      facetEvolved samplePopulatedRecord a') ∧
    (∃ a', mapGet "pop1" (analyzeCompositionRoute sampleEnv samplePopulatedStore
        (some "pop1")).2.1.productAnalyses = some a' ∧
      facetEvolved samplePopulatedRecord a') ∧
    (∃ a', mapGet "pop1" (analyzeRedditRoute sampleEnv samplePopulatedStore
        (some "pop1")).2.1.productAnalyses = some a' ∧
      facetEvolved samplePopulatedRecord a') :=
  C5_monotonic_facet_slots sampleEnv samplePopulatedStore (some "pop1") "pop1"
    samplePopulatedRecord rfl

/-! ## C2: memoization -/

theorem applyUpdate_ing_slot (a : ProductAnalysis) (x : Option IngredientsData) :
    (applyUpdate { ingredientsData := some x } a).ingredientsData = x := rfl

theorem applyUpdate_comp_slot (a : ProductAnalysis) (x : Option CompositionData) :
    (applyUpdate { compositionData := some x } a).compositionData = x := rfl

theorem applyUpdate_red_slot (a : ProductAnalysis) (x : Option RedditData) :
    (applyUpdate { redditData := some x } a).redditData = x := rfl

/-- The external calls made by two sequential ingredients requests. -/
def twoIngredientsRunsCalls (env : Env) (st : Storage) (id : String) : List Call :=
  let r1 := analyzeIngredientsRoute env st (some id)
  let r2 := analyzeIngredientsRoute env r1.2.1 (some id)
  r1.2.2 ++ r2.2.2

theorem ingredientsRoute_second_run (env : Env) (st : Storage) (id : String)
    (v : IngredientsData)
    (hv : (analyzeIngredientsRoute env st (some id)).1 = RouteResponse.ok v) :
    analyzeIngredientsRoute env (analyzeIngredientsRoute env st (some id)).2.1 (some id)
      = (RouteResponse.ok v, (analyzeIngredientsRoute env st (some id)).2.1, []) := by
  cases hget : mapGet id st.productAnalyses with
  | none =>
    simp only [analyzeIngredientsRoute, hget] at hv
    exact (RouteResponse.noConfusion hv)
  | some a =>
    cases hslot : a.ingredientsData with
    | some d =>
      have hfirst : analyzeIngredientsRoute env st (some id) = (RouteResponse.ok d, st, []) := by
        simp only [analyzeIngredientsRoute, hget, hslot]
      rw [hfirst] at hv ⊢
      dsimp only at hv ⊢
      cases hv
      simp only [analyzeIngredientsRoute, hget, hslot]
    | none =>
      rcases hchain : ingredientsChain env a with ⟨r, calls⟩
      cases r with
      | error e =>
        have hfirst : (analyzeIngredientsRoute env st (some id)).1
            = RouteResponse.serverError := by
          simp only [analyzeIngredientsRoute, hget, hchain, hslot]
        rw [hfirst] at hv
        exact (RouteResponse.noConfusion hv)
      | ok w =>
        have hfirst : analyzeIngredientsRoute env st (some id)
            = (RouteResponse.ok w,
               ({ st with
                  productAnalyses :=
                    mapSet id (applyUpdate { ingredientsData := some (some w) } a)
                      st.productAnalyses } : Storage),
               calls) := by
          simp only [analyzeIngredientsRoute, hget, hslot, hchain, updateProductAnalysis,
            applyUpdate_ing_slot, Option.getD_some]
        rw [hfirst] at hv ⊢
        dsimp only at hv ⊢
        injection hv with hwv
        subst hwv
        have hget2 : mapGet id (mapSet id (applyUpdate { ingredientsData := some (some w) } a)
            st.productAnalyses) = some (applyUpdate { ingredientsData := some (some w) } a) :=
          mapGet_mapSet_self id _ st.productAnalyses
        simp only [analyzeIngredientsRoute, hget2, applyUpdate_ing_slot]

theorem compositionRoute_second_run (env : Env) (st : Storage) (id : String)
    (v : CompositionData)
    (hv : (analyzeCompositionRoute env st (some id)).1 = RouteResponse.ok v) :
    analyzeCompositionRoute env (analyzeCompositionRoute env st (some id)).2.1 (some id)
      = (RouteResponse.ok v, (analyzeCompositionRoute env st (some id)).2.1, []) := by
  cases hget : mapGet id st.productAnalyses with
  | none =>
    simp only [analyzeCompositionRoute, hget] at hv
    exact (RouteResponse.noConfusion hv)
  | some a =>
    cases hslot : a.compositionData with
    | some d =>
      have hfirst : analyzeCompositionRoute env st (some id) = (RouteResponse.ok d, st, []) := by
        simp only [analyzeCompositionRoute, hget, hslot]
      rw [hfirst] at hv ⊢
      dsimp only at hv ⊢
      cases hv
      simp only [analyzeCompositionRoute, hget, hslot]
    | none =>
      have hfirst : analyzeCompositionRoute env st (some id)
          = (RouteResponse.ok (compositionChain env a).1,
             ({ st with
                productAnalyses :=
                  mapSet id
                    (applyUpdate { compositionData := some (some (compositionChain env a).1) } a)
                    st.productAnalyses } : Storage),
             (compositionChain env a).2) := by
        simp only [analyzeCompositionRoute, hget, hslot, updateProductAnalysis,
          applyUpdate_comp_slot, Option.getD_some]
      rw [hfirst] at hv ⊢
      dsimp only at hv ⊢
      injection hv with hwv
      subst hwv
      have hget2 : mapGet id (mapSet id
          (applyUpdate { compositionData := some (some (compositionChain env a).1) } a)
          st.productAnalyses)
          = some (applyUpdate { compositionData := some (some (compositionChain env a).1) } a) :=
        mapGet_mapSet_self id _ st.productAnalyses
      simp only [analyzeCompositionRoute, hget2, applyUpdate_comp_slot]

theorem redditRoute_second_run (env : Env) (st : Storage) (id : String)
    (v : Option RedditData)
    (hv : (analyzeRedditRoute env st (some id)).1 = RouteResponse.ok v) :
    analyzeRedditRoute env (analyzeRedditRoute env st (some id)).2.1 (some id)
      = (RouteResponse.ok v, (analyzeRedditRoute env st (some id)).2.1, []) := by
  cases hget : mapGet id st.productAnalyses with
  | none =>
    simp only [analyzeRedditRoute, hget] at hv
    exact (RouteResponse.noConfusion hv)
  | some a =>
    cases hslot : a.redditData with
    | some d =>
      have hfirst : analyzeRedditRoute env st (some id)
          = (RouteResponse.ok (some d), st, []) := by
        simp only [analyzeRedditRoute, hget, hslot]
      rw [hfirst] at hv ⊢
      dsimp only at hv ⊢
      cases hv
      simp only [analyzeRedditRoute, hget, hslot]
    | none =>
      by_cases hfb : a.isFallbackMode = true
      · have ha : applyUpdate { redditData := some none } a = a := by
          simp only [applyUpdate, Option.getD_none, Option.getD_some]
          rw [← hslot]
        have hsame : mapSet id a st.productAnalyses = st.productAnalyses :=
          mapSet_self id a st.productAnalyses hget
        have hfirst : analyzeRedditRoute env st (some id)
            = (RouteResponse.ok none, st, []) := by
          simp [analyzeRedditRoute, hget, hslot, hfb, updateProductAnalysis, ha, hsame]
        rw [hfirst] at hv ⊢
        dsimp only at hv ⊢
        injection hv with hwv
        subst hwv
        exact hfirst
      · have hfirst : analyzeRedditRoute env st (some id)
            = (RouteResponse.ok (some (searchRedditReviews env).1),
               ({ st with
                  productAnalyses :=
                    mapSet id
                      (applyUpdate { redditData := some (some (searchRedditReviews env).1) } a)
                      st.productAnalyses } : Storage),
               (searchRedditReviews env).2) := by
          simp [analyzeRedditRoute, hget, hslot, hfb, updateProductAnalysis,
            applyUpdate_red_slot]
        rw [hfirst] at hv ⊢
        dsimp only at hv ⊢
        injection hv with hwv
        subst hwv
        have hget2 := mapGet_mapSet_self id
          (applyUpdate { redditData := some (some (searchRedditReviews env).1) } a)
          st.productAnalyses
        simp [analyzeRedditRoute, hget2, applyUpdate_red_slot]

/-- C2 counterexample: for a primary-mode record whose ingredients adapter
fails with a non-rate-limited error, the first call responds 500 and
writes nothing, so the second sequential call invokes the adapter chain
again — two `gemIngredients` invocations across two calls, not at most
one. -/
theorem C2_counterexample_double_invocation :
    ¬ ((twoIngredientsRunsCalls ingFailEnv samplePrimaryStore "pri1").count
        Call.gemIngredients ≤ 1) := by
  decide

/-- C2 amended: for every record and facet, if the first facet call
responds 200 then the second sequential call performs no external adapter
calls, leaves the store unchanged, and returns exactly the first call's
payload; the original at-most-once bound fails only when the first
ingredients call ends in a 500 (which writes nothing and is re-attempted). -/
theorem C2_amended_memoization (env : Env) (st : Storage) (id : String) :
    (∀ v, (analyzeIngredientsRoute env st (some id)).1 = RouteResponse.ok v →
      analyzeIngredientsRoute env (analyzeIngredientsRoute env st (some id)).2.1 (some id)
        = (RouteResponse.ok v, (analyzeIngredientsRoute env st (some id)).2.1, [])) ∧
    (∀ v, (analyzeCompositionRoute env st (some id)).1 = RouteResponse.ok v →
      analyzeCompositionRoute env (analyzeCompositionRoute env st (some id)).2.1 (some id)
        = (RouteResponse.ok v, (analyzeCompositionRoute env st (some id)).2.1, [])) ∧
    (∀ v, (analyzeRedditRoute env st (some id)).1 = RouteResponse.ok v →
      analyzeRedditRoute env (analyzeRedditRoute env st (some id)).2.1 (some id)
        = (RouteResponse.ok v, (analyzeRedditRoute env st (some id)).2.1, [])) :=
  ⟨fun v hv => ingredientsRoute_second_run env st id v hv,
   fun v hv => compositionRoute_second_run env st id v hv,
   fun v hv => redditRoute_second_run env st id v hv⟩

/-- C2 witness: concrete second runs returning the cached values with no
adapter calls. -/
theorem C2_amended_memoization_witness :
    analyzeIngredientsRoute sampleEnv
        (analyzeIngredientsRoute sampleEnv samplePrimaryStore (some "pri1")).2.1 (some "pri1")
      = (RouteResponse.ok ⟨[⟨"Sugar", "Moderate", "High sugar content"⟩]⟩,
         (analyzeIngredientsRoute sampleEnv samplePrimaryStore (some "pri1")).2.1, []) :=
  (C2_amended_memoization sampleEnv samplePrimaryStore "pri1").1
    ⟨[⟨"Sugar", "Moderate", "High sugar content"⟩]⟩ (by decide)

/-! ## C3: safe-default totality -/

theorem ingredientsChain_primary (env : Env) (a : ProductAnalysis)
    (hfb : a.isFallbackMode = false) :
    ingredientsChain env a = analyzeIngredients env := by
  unfold ingredientsChain
  simp [hfb]

theorem analyzeIngredients_error_iff (env : Env) :
    (analyzeIngredients env).1 = Except.error ()
      ↔ (env.geminiKey = false ∨ env.ingredientsModel = GeminiOutcome.failure false) := by
  unfold analyzeIngredients
  cases hk : env.geminiKey
  · simp
  · cases hm : env.ingredientsModel with
    | content p => cases p <;> simp
    | failure rl => cases rl <;> simp

theorem analyzeIngredientsRoute_status_of_chain (env : Env) (st : Storage) (id : String)
    (a : ProductAnalysis) (h : mapGet id st.productAnalyses = some a)
    (hslot : a.ingredientsData = none) :
    ((∃ v, (ingredientsChain env a).1 = Except.ok v) →
      (analyzeIngredientsRoute env st (some id)).1.status = 200) ∧
    ((ingredientsChain env a).1 = Except.error () →
      (analyzeIngredientsRoute env st (some id)).1.status = 500) := by
  simp only [analyzeIngredientsRoute, h, hslot]
  try dsimp only
  rcases hchain : ingredientsChain env a with ⟨r, calls⟩
  cases r with
  | error e =>
    refine ⟨?_, ?_⟩
    · rintro ⟨v, hv⟩
      dsimp only at hv
      exact (Except.noConfusion hv)
    · intro _
      rfl
  | ok w =>
    refine ⟨?_, ?_⟩
    · intro _
      rfl
    · intro hv
      dsimp only at hv
      exact (Except.noConfusion hv)

/-- C3 counterexample: an existing primary-mode record with an empty
ingredients slot and an ingredients adapter that fails with a
non-rate-limited error — the endpoint responds 500, not 200 with a safe
default, so the adapter failure does reach the transport layer. -/
theorem C3_counterexample_ingredients_500 :
    (analyzeIngredientsRoute ingFailEnv samplePrimaryStore (some "pri1")).1
      = RouteResponse.serverError := by
  decide

/-- C3 amended: the composition and sentiment endpoints always respond 200
for an existing record, whatever the adapters do (their chains substitute
well-typed safe defaults); the ingredients endpoint responds 200 whenever
the record is degraded, the slot is already populated, or the primary
adapter is available and does not fail non-rate-limited — but an empty
primary-mode slot whose Gemini call fails with a non-rate-limited error
(or whose API key is missing) yields a 500. -/
theorem C3_amended_safe_default_totality (env : Env) (st : Storage) (id : String)
    (a : ProductAnalysis) (h : mapGet id st.productAnalyses = some a) :
    (analyzeCompositionRoute env st (some id)).1.status = 200 ∧
    (analyzeRedditRoute env st (some id)).1.status = 200 ∧
    ((a.isFallbackMode = true ∨ a.ingredientsData ≠ none ∨
        (env.geminiKey = true ∧ env.ingredientsModel ≠ GeminiOutcome.failure false)) →
      (analyzeIngredientsRoute env st (some id)).1.status = 200) ∧
    ((a.ingredientsData = none ∧ a.isFallbackMode = false ∧
        (env.geminiKey = false ∨ env.ingredientsModel = GeminiOutcome.failure false)) →
      (analyzeIngredientsRoute env st (some id)).1.status = 500) := by
  refine ⟨?_, ?_, ?_, ?_⟩
  · simp only [analyzeCompositionRoute, h]
    try dsimp only
    cases a.compositionData with
    | some d => rfl
    | none => rfl
  · simp only [analyzeRedditRoute, h]
    try dsimp only
    cases a.redditData with
    | some d => rfl
    | none => rfl
  · intro hcase
    cases hslot : a.ingredientsData with
    | some d =>
      simp only [analyzeIngredientsRoute, h, hslot]
      rfl
    | none =>
      refine (analyzeIngredientsRoute_status_of_chain env st id a h hslot).1 ?_
      by_cases hfb : a.isFallbackMode = true
      · exact ingredientsChain_degraded_ok env a hfb
      · have hfb' : a.isFallbackMode = false := by
          cases hb : a.isFallbackMode
          · rfl
          · exact absurd hb hfb
        rw [ingredientsChain_primary env a hfb']
        rcases hcase with hcase | hcase | ⟨hkey, hmod⟩
        · exact absurd hcase hfb
        · exact absurd hslot hcase
        · unfold analyzeIngredients
          rw [hkey]
          cases hm : env.ingredientsModel with
          | content p =>
            cases p with
            | none => exact ⟨_, rfl⟩
            | some q => exact ⟨_, rfl⟩
          | failure rl =>
            cases rl with
            | true => exact ⟨_, rfl⟩
            | false => exact absurd hm hmod
  · rintro ⟨hslot, hfb, hfail⟩
    refine (analyzeIngredientsRoute_status_of_chain env st id a h hslot).2 ?_
    rw [ingredientsChain_primary env a hfb]
    exact (analyzeIngredients_error_iff env).mpr hfail

/-- C3 witness: the amended statement at a concrete record and
environment (every hypothesis discharged by evaluation). -/
theorem C3_amended_safe_default_totality_witness :
    (analyzeCompositionRoute ingFailEnv samplePrimaryStore (some "pri1")).1.status = 200 ∧
    (analyzeRedditRoute ingFailEnv samplePrimaryStore (some "pri1")).1.status = 200 ∧
    (analyzeIngredientsRoute ingFailEnv samplePrimaryStore (some "pri1")).1.status = 500 :=
  ⟨(C3_amended_safe_default_totality ingFailEnv samplePrimaryStore "pri1"
      samplePrimaryRecord rfl).1,
   (C3_amended_safe_default_totality ingFailEnv samplePrimaryStore "pri1"
      samplePrimaryRecord rfl).2.1,
   (C3_amended_safe_default_totality ingFailEnv samplePrimaryStore "pri1"
      samplePrimaryRecord rfl).2.2.2 ⟨rfl, rfl, Or.inr rfl⟩⟩

/-! ## C4: behaviour under total identification failure -/

/-- The response item built for one stored candidate (`isFallbackMode` is
always false on this route). -/
def uploadItem (id : String) (c : Candidate) (url : String) : AnalysisResponseItem :=
  { analysisId := id, productName := c.productName, productSummary := c.summary,
    extractedText := c.extractedText, imageUrl := some url, isFallbackMode := false,
    featuresData := none, ingredientsData := none, compositionData := none,
    redditData := none }

/-- The benign environment with an always-overloaded vision adapter. -/
def overloadEnv : Env := { sampleEnv with vision := .failOverloaded }

/-- An empty store. -/
def emptyStore : Storage := ⟨[], [], 0⟩

/-- A concrete uploaded image. -/
def sampleImage : ImageFile := ⟨"image/jpeg", "QUJD"⟩

/-- The single item returned by the upload route in the overload
counterexample run. -/
def overloadItem : AnalysisResponseItem :=
  { analysisId := "uuid-0", productName := "Service Overloaded",
    productSummary := serviceOverloadedCandidate.summary,
    extractedText := serviceOverloadedCandidate.extractedText,
    imageUrl := some "data:image/jpeg;base64,QUJD", isFallbackMode := false,
    featuresData := none, ingredientsData := none, compositionData := none,
    redditData := none }

/-- C4 counterexample: with the vision adapter overloaded on every
attempt, the upload route responds 200 with one placeholder record — but
that record carries `isFallbackMode = false`, not `true` as the claim
requires: the identification service converts its failures into
placeholder candidates internally, so the route-level catch that sets the
flag never runs. -/
theorem C4_counterexample_flag_false :
    (analyzeProductRoute overloadEnv emptyStore 0 (some sampleImage) 5).1
        = RouteResponse.ok [overloadItem] ∧
      overloadItem.isFallbackMode = false :=
  ⟨by decide, rfl⟩

/-- C4 amended: under total vision failure the upload route still responds
200 and never errors: an overloaded vision call below the failure
threshold yields exactly one "Service Overloaded" placeholder record with
`isFallbackMode = false`; and a vision reply containing no JSON array
yields 200 with an empty array (so the response can be empty, and the
degraded flag is never set by this route). -/
theorem C4_amended_total_failure (env : Env) (st : Storage) (gfc : Nat) (img : ImageFile)
    (now : Nat) (hkey : env.geminiKey = true) :
    (env.vision = VisionOutcome.failOverloaded → gfc + 1 < MAX_GEMINI_FAILURES →
      (analyzeProductRoute env st gfc (some img) now).1
        = RouteResponse.ok [uploadItem (env.uuid st.uuidIdx) serviceOverloadedCandidate
            ("data:" ++ img.mimetype ++ ";base64," ++ img.base64)]) ∧
    (env.vision = VisionOutcome.contentNoArray →
      (analyzeProductRoute env st gfc (some img) now).1 = RouteResponse.ok []) := by
  refine ⟨?_, ?_⟩
  · intro hvis hcnt
    have hlt : ¬ (MAX_GEMINI_FAILURES ≤ gfc + 1) := Nat.not_le.mpr hcnt
    simp [analyzeProductRoute, identifyProductAndExtractText, hkey, hvis, hlt,
      storeCandidates, createProductAnalysis, uploadItem]
  · intro hvis
    simp [analyzeProductRoute, identifyProductAndExtractText, hkey, hvis, storeCandidates]

/-- C4 witness: the amended statement at a concrete environment, store and
image, for both failure shapes. -/
theorem C4_amended_total_failure_witness :
    (analyzeProductRoute overloadEnv emptyStore 0 (some sampleImage) 5).1
        = RouteResponse.ok [uploadItem (overloadEnv.uuid 0) serviceOverloadedCandidate
            ("data:" ++ sampleImage.mimetype ++ ";base64," ++ sampleImage.base64)] ∧
    (analyzeProductRoute sampleEnv emptyStore 0 (some sampleImage) 5).1
        = RouteResponse.ok [] :=
  ⟨(C4_amended_total_failure overloadEnv emptyStore 0 sampleImage 5 rfl).1 rfl (by decide),
   (C4_amended_total_failure sampleEnv emptyStore 0 sampleImage 5 rfl).2 rfl⟩

/-! ## C6: degraded-mode chat -/

/-- C6: for every record with `isFallbackMode = true` and every non-empty
chat message, `POST /api/chat/:analysisId` responds with the fixed
"temporarily unavailable" string, makes no adapter call (in particular
never invokes `generateChatResponse`), and still appends the message to
the chat log. -/
theorem C6_degraded_chat_short_circuit (env : Env) (st : Storage) (id msg : String)
    (now : Nat) (a : ProductAnalysis) (h : mapGet id st.productAnalyses = some a)
    (hfb : a.isFallbackMode = true) (hmsg : msg ≠ "") :
    postChatRoute env st id msg now
      = (RouteResponse.ok ⟨msg, chatUnavailableText, now⟩,
         ({ st with
            chatMessages := st.chatMessages ++
              [⟨env.uuid st.uuidIdx, id, msg, chatUnavailableText, now⟩],
            uuidIdx := st.uuidIdx + 1 } : Storage),
         []) := by
  simp [postChatRoute, hmsg, h, hfb, createChatMessage]

/-- C6 witness: a concrete degraded record and message. -/
theorem C6_degraded_chat_short_circuit_witness :
    postChatRoute sampleEnv sampleDegradedStore "deg1" "is this healthy?" 7
      = (RouteResponse.ok ⟨"is this healthy?", chatUnavailableText, 7⟩,
         ({ sampleDegradedStore with
            chatMessages := sampleDegradedStore.chatMessages ++
              [⟨sampleEnv.uuid 0, "deg1", "is this healthy?", chatUnavailableText, 7⟩],
            uuidIdx := 1 } : Storage),
         []) :=
  C6_degraded_chat_short_circuit sampleEnv sampleDegradedStore "deg1" "is this healthy?" 7
    sampleDegradedRecord rfl rfl (by decide)

/-! ## C8: chat history ordering -/

/-- C8: `GET /api/chat/:analysisId` returns exactly the chat messages
previously created for that id, in insertion order (which is the order
`PostMessage` calls completed, since `createChatMessage` appends), and
that order is non-decreasing in `createdAt`; messages of other ids never
appear.  The hypothesis says the log's timestamps are non-decreasing in
insertion order, which holds because `new Date()` is drawn from a
monotone clock. -/
theorem C8_chat_history_insertion_order (env : Env) (st : Storage)
    (id msg resp : String) (now : Nat)
    (hsorted : st.chatMessages.Pairwise (fun m1 m2 => m1.createdAt ≤ m2.createdAt)) :
    getChatHistoryRoute st id = st.chatMessages.filter (fun m => m.analysisId == id) ∧
    (getChatHistoryRoute st id).Pairwise (fun m1 m2 => m1.createdAt ≤ m2.createdAt) ∧
    (∀ m ∈ getChatHistoryRoute st id, m.analysisId = id) ∧
    (createChatMessage env st id msg resp now).1.chatMessages
      = st.chatMessages ++ [(createChatMessage env st id msg resp now).2] := by
  have hfiltered : (st.chatMessages.filter (fun m => m.analysisId == id)).Pairwise
      (fun m1 m2 => m1.createdAt ≤ m2.createdAt) :=
    hsorted.sublist (List.filter_sublist _)
  have hmain : getChatHistoryRoute st id
      = st.chatMessages.filter (fun m => m.analysisId == id) := by
    unfold getChatHistoryRoute getChatMessages
    exact sortByTime_of_sorted _ hfiltered
  refine ⟨hmain, ?_, ?_, rfl⟩
  · rw [hmain]
    exact hfiltered
  · rw [hmain]
    intro m hm
    have hbeq := (List.mem_filter.mp hm).2
    exact eq_of_beq hbeq

/-- A concrete chat log: two analyses interleaved, non-decreasing
timestamps. -/
def sampleChatLog : List ChatMessage :=
  [⟨"m0", "deg1", "hi", "resp0", 1⟩, ⟨"m1", "other", "x", "y", 2⟩,
   ⟨"m2", "deg1", "q", "a", 2⟩]

/-- A store carrying the sample chat log. -/
def sampleChatStore : Storage := ⟨[], sampleChatLog, 3⟩

/-- C8 witness: the concrete log's history for `deg1` is its filtered
sublist in insertion order. -/
theorem C8_chat_history_insertion_order_witness :
    getChatHistoryRoute sampleChatStore "deg1"
        = sampleChatStore.chatMessages.filter (fun m => m.analysisId == "deg1") ∧
    (∀ m ∈ getChatHistoryRoute sampleChatStore "deg1", m.analysisId = "deg1") ∧
    (createChatMessage sampleEnv sampleChatStore "deg1" "more" "resp" 9).1.chatMessages
      = sampleChatStore.chatMessages ++
          [(createChatMessage sampleEnv sampleChatStore "deg1" "more" "resp" 9).2] :=
  ⟨(C8_chat_history_insertion_order sampleEnv sampleChatStore "deg1" "more" "resp" 9
      (by decide)).1,
   (C8_chat_history_insertion_order sampleEnv sampleChatStore "deg1" "more" "resp" 9
      (by decide)).2.2.1,
   (C8_chat_history_insertion_order sampleEnv sampleChatStore "deg1" "more" "resp" 9
      (by decide)).2.2.2⟩

/-! ## C7: multi-candidate upload -/

/-- Freshness of the next `n` UUID draws relative to a store: pairwise
distinct and absent from the store (models the no-collision property of
`generateUUID`). -/
def freshIdsFor (env : Env) (st : Storage) (n : Nat) : Prop :=
  (∀ i < n, ∀ j < n, i ≠ j → env.uuid (st.uuidIdx + i) ≠ env.uuid (st.uuidIdx + j)) ∧
  (∀ i < n, mapGet (env.uuid (st.uuidIdx + i)) st.productAnalyses = none)

theorem storeCandidates_items_ids (env : Env) (url : String) (fb : Bool) (now : Nat) :
    ∀ (cs : List Candidate) (st : Storage),
      (storeCandidates env url fb now st cs).2.map (fun it => it.analysisId)
        = (List.range cs.length).map (fun i => env.uuid (st.uuidIdx + i)) := by
  intro cs
  induction cs with
  | nil => intro st; simp [storeCandidates]
  | cons c cs ih =>
    intro st
    have htail := ih ((createProductAnalysis env st
      { productName := c.productName, productSummary := c.summary,
        extractedText := c.extractedText, imageUrl := some url,
        isFallbackMode := fb } now).1)
    simp only [createProductAnalysis] at htail
    simp only [storeCandidates, createProductAnalysis, List.map_cons, List.length_cons,
      List.range_succ_eq_map, List.map_map, List.cons.injEq, htail]
    refine ⟨by simp, ?_⟩
    refine List.map_congr_left ?_
    intro i _
    simp only [Function.comp_apply]
    congr 1
    omega

theorem storeCandidates_items_fields (env : Env) (url : String) (fb : Bool) (now : Nat) :
    ∀ (cs : List Candidate) (st : Storage),
      ∀ it ∈ (storeCandidates env url fb now st cs).2,
        it.ingredientsData = none ∧ it.compositionData = none ∧ it.redditData = none ∧
        it.imageUrl = some url := by
  intro cs
  induction cs with
  | nil => intro st it hit; simp [storeCandidates] at hit
  | cons c cs ih =>
    intro st it hit
    simp only [storeCandidates, List.mem_cons] at hit
    rcases hit with hit | hit
    · subst hit
      exact ⟨rfl, rfl, rfl, rfl⟩
    · exact ih _ it hit

theorem storeCandidates_uuidIdx (env : Env) (url : String) (fb : Bool) (now : Nat) :
    ∀ (cs : List Candidate) (st : Storage),
      (storeCandidates env url fb now st cs).1.uuidIdx = st.uuidIdx + cs.length := by
  intro cs
  induction cs with
  | nil => intro st; simp [storeCandidates]
  | cons c cs ih =>
    intro st
    simp only [storeCandidates, List.length_cons]
    rw [ih]
    simp [createProductAnalysis]
    omega

theorem storeCandidates_frame (env : Env) (url : String) (fb : Bool) (now : Nat) :
    ∀ (cs : List Candidate) (st : Storage) (k : String),
      (∀ i < cs.length, k ≠ env.uuid (st.uuidIdx + i)) →
      mapGet k (storeCandidates env url fb now st cs).1.productAnalyses
        = mapGet k st.productAnalyses := by
  intro cs
  induction cs with
  | nil => intro st k _; simp [storeCandidates]
  | cons c cs ih =>
    intro st k hk
    simp only [storeCandidates]
    rw [ih _ k ?later]
    case later =>
      intro i hi
      have := hk (i + 1) (by simp; omega)
      simpa [createProductAnalysis, Nat.add_assoc, Nat.add_comm 1 i] using this
    have hk0 : env.uuid st.uuidIdx ≠ k := fun he =>
      (hk 0 (by simp)) (by simpa using he.symm)
    simp [createProductAnalysis, mapGet_mapSet_ne _ _ _ _ hk0]

theorem storeCandidates_length (env : Env) (url : String) (fb : Bool) (now : Nat) :
    ∀ (cs : List Candidate) (st : Storage), freshIdsFor env st cs.length →
      (storeCandidates env url fb now st cs).1.productAnalyses.length
        = st.productAnalyses.length + cs.length := by
  intro cs
  induction cs with
  | nil => intro st _; simp [storeCandidates]
  | cons c cs ih =>
    intro st hfresh
    obtain ⟨hdis, hnew⟩ := hfresh
    simp only [storeCandidates, List.length_cons]
    have h0 : mapGet (env.uuid st.uuidIdx) st.productAnalyses = none := by
      simpa using hnew 0 (by simp)
    have hfresh1 : freshIdsFor env
        (createProductAnalysis env st
          { productName := c.productName, productSummary := c.summary,
            extractedText := c.extractedText, imageUrl := some url,
            isFallbackMode := fb } now).1 cs.length := by
      constructor
      · intro i hi j hj hij
        have := hdis (i + 1) (by simp; omega) (j + 1) (by simp; omega) (by omega)
        simpa [createProductAnalysis, Nat.add_assoc, Nat.add_comm 1 i,
          Nat.add_comm 1 j] using this
      · intro i hi
        have hne : env.uuid st.uuidIdx ≠ env.uuid (st.uuidIdx + (i + 1)) := by
          have := hdis 0 (by simp) (i + 1) (by simp; omega) (by omega)
          simpa using this
        have hnone : mapGet (env.uuid (st.uuidIdx + (i + 1))) st.productAnalyses = none :=
          hnew (i + 1) (by simp; omega)
        simp only [createProductAnalysis]
        rw [show st.uuidIdx + 1 + i = st.uuidIdx + (i + 1) by omega]
        rw [mapGet_mapSet_ne _ _ _ _ hne]
        exact hnone
    rw [ih _ hfresh1]
    have hlen : (createProductAnalysis env st
        { productName := c.productName, productSummary := c.summary,
          extractedText := c.extractedText, imageUrl := some url,
          isFallbackMode := fb } now).1.productAnalyses.length
        = st.productAnalyses.length + 1 := by
      show (mapSet (env.uuid st.uuidIdx)
        (createProductAnalysis env st
          { productName := c.productName, productSummary := c.summary,
            extractedText := c.extractedText, imageUrl := some url,
            isFallbackMode := fb } now).2 st.productAnalyses).length = _
      rw [mapSet_append_of_fresh _ _ _ h0]
      simp
    rw [hlen]
    omega

theorem storeCandidates_members (env : Env) (url : String) (fb : Bool) (now : Nat) :
    ∀ (cs : List Candidate) (st : Storage), freshIdsFor env st cs.length →
      ∀ it ∈ (storeCandidates env url fb now st cs).2, ∃ rec,
        mapGet it.analysisId (storeCandidates env url fb now st cs).1.productAnalyses
          = some rec ∧ rec.ingredientsData = none ∧ rec.compositionData = none ∧
        rec.redditData = none ∧ rec.imageUrl = some url := by
  intro cs
  induction cs with
  | nil => intro st _ it hit; simp [storeCandidates] at hit
  | cons c cs ih =>
    intro st hfresh it hit
    obtain ⟨hdis, hnew⟩ := hfresh
    have hfresh1 : freshIdsFor env
        (createProductAnalysis env st
          { productName := c.productName, productSummary := c.summary,
            extractedText := c.extractedText, imageUrl := some url,
            isFallbackMode := fb } now).1 cs.length := by
      constructor
      · intro i hi j hj hij
        have := hdis (i + 1) (by simp; omega) (j + 1) (by simp; omega) (by omega)
        simpa [createProductAnalysis, Nat.add_assoc, Nat.add_comm 1 i,
          Nat.add_comm 1 j] using this
      · intro i hi
        have hne : env.uuid st.uuidIdx ≠ env.uuid (st.uuidIdx + (i + 1)) := by
          have := hdis 0 (by simp) (i + 1) (by simp; omega) (by omega)
          simpa using this
        have hnone : mapGet (env.uuid (st.uuidIdx + (i + 1))) st.productAnalyses = none :=
          hnew (i + 1) (by simp; omega)
        simp only [createProductAnalysis]
        rw [show st.uuidIdx + 1 + i = st.uuidIdx + (i + 1) by omega]
        rw [mapGet_mapSet_ne _ _ _ _ hne]
        exact hnone
    simp only [storeCandidates, List.mem_cons] at hit
    rcases hit with hit | hit
    · -- the head item: its record survives the later inserts
      refine ⟨(createProductAnalysis env st
          { productName := c.productName, productSummary := c.summary,
            extractedText := c.extractedText, imageUrl := some url,
            isFallbackMode := fb } now).2, ?_, rfl, rfl, rfl, rfl⟩
      have hid : it.analysisId = env.uuid st.uuidIdx := by
        simp [hit, createProductAnalysis]
      simp only [storeCandidates]
      rw [hid]
      rw [storeCandidates_frame env url fb now cs _ _ ?avoid]
      case avoid =>
        intro i hi
        have := hdis 0 (by simp) (i + 1) (by simp; omega) (by omega)
        simpa [createProductAnalysis, Nat.add_assoc, Nat.add_comm 1 i] using this
      simp [createProductAnalysis, mapGet_mapSet_self]
    · -- a tail item: by the induction hypothesis on the grown store
      have := ih _ hfresh1 it hit
      simpa [storeCandidates] using this

/-- C7: for every upload whose identification step returns `n ≥ 1`
candidate products, exactly `n` analysis records are created and returned,
each with a distinct freshly generated id (given that the UUID draws do
not collide), each with all facet slots null, and all `n` sharing the same
`imageUrl` derived from the uploaded image. -/
theorem C7_multi_candidate_upload (env : Env) (st : Storage) (gfc now : Nat)
    (img : ImageFile) (cs : List Candidate)
    (hkey : env.geminiKey = true) (hvis : env.vision = VisionOutcome.contentArr cs)
    (_hn : 1 ≤ cs.length) (hfresh : freshIdsFor env st cs.length) :
    ∃ items, (analyzeProductRoute env st gfc (some img) now).1 = RouteResponse.ok items ∧
      items.length = cs.length ∧
      (items.map (fun it => it.analysisId)).Pairwise (fun x y => x ≠ y) ∧
      (∀ it ∈ items, it.ingredientsData = none ∧ it.compositionData = none ∧
        it.redditData = none ∧
        it.imageUrl = some ("data:" ++ img.mimetype ++ ";base64," ++ img.base64)) ∧
      (∀ it ∈ items, ∃ rec,
        mapGet it.analysisId
            (analyzeProductRoute env st gfc (some img) now).2.1.productAnalyses
          = some rec ∧ rec.ingredientsData = none ∧ rec.compositionData = none ∧
        rec.redditData = none ∧
        rec.imageUrl = some ("data:" ++ img.mimetype ++ ";base64," ++ img.base64)) ∧
      (analyzeProductRoute env st gfc (some img) now).2.1.productAnalyses.length
        = st.productAnalyses.length + cs.length := by
  have hroute : analyzeProductRoute env st gfc (some img) now
      = (RouteResponse.ok
          (storeCandidates env ("data:" ++ img.mimetype ++ ";base64," ++ img.base64)
            false now st cs).2,
         (storeCandidates env ("data:" ++ img.mimetype ++ ";base64," ++ img.base64)
            false now st cs).1,
         0, [Call.gemVision]) := by
    simp [analyzeProductRoute, identifyProductAndExtractText, hkey, hvis]
  refine ⟨(storeCandidates env ("data:" ++ img.mimetype ++ ";base64," ++ img.base64)
      false now st cs).2, ?_, ?_, ?_, ?_, ?_, ?_⟩
  · rw [hroute]
  · have := congrArg List.length
      (storeCandidates_items_ids env
        ("data:" ++ img.mimetype ++ ";base64," ++ img.base64) false now cs st)
    simpa using this
  · rw [storeCandidates_items_ids]
    rw [List.pairwise_map]
    have hlt : (List.range cs.length).Pairwise (fun i j => i < j) :=
      List.pairwise_lt_range cs.length
    refine hlt.imp_of_mem ?_
    intro i j hi hj hij
    exact hfresh.1 i (List.mem_range.mp hi) j (List.mem_range.mp hj) (Nat.ne_of_lt hij)
  · exact storeCandidates_items_fields env _ false now cs st
  · intro it hit
    have := storeCandidates_members env _ false now cs st hfresh it hit
    rw [hroute]
    exact this
  · rw [hroute]
    exact storeCandidates_length env _ false now cs st hfresh

/-- Three distinct candidates for the witness. -/
def threeCandidates : List Candidate :=
  [⟨"Prod A", ⟨"a, b", "90 calories", "BrA", none⟩, "first product"⟩,
   ⟨"Prod B", ⟨"c, d", "na", "BrB", none⟩, "second product"⟩,
   ⟨"Prod C", ⟨"e, f", "na", "BrC", none⟩, "third product"⟩]

/-- The benign environment whose vision reply lists the three
candidates. -/
def threeEnv : Env := { sampleEnv with vision := .contentArr threeCandidates }

/-- C7 witness: the three-candidate upload at a concrete store. -/
theorem C7_multi_candidate_upload_witness :
    ∃ items, (analyzeProductRoute threeEnv emptyStore 0 (some sampleImage) 5).1
        = RouteResponse.ok items ∧
      items.length = threeCandidates.length ∧
      (items.map (fun it => it.analysisId)).Pairwise (fun x y => x ≠ y) ∧
      (∀ it ∈ items, it.ingredientsData = none ∧ it.compositionData = none ∧
        it.redditData = none ∧
        it.imageUrl = some ("data:" ++ sampleImage.mimetype ++ ";base64," ++
          sampleImage.base64)) ∧
      (∀ it ∈ items, ∃ rec,
        mapGet it.analysisId
            (analyzeProductRoute threeEnv emptyStore 0 (some sampleImage) 5).2.1.productAnalyses
          = some rec ∧ rec.ingredientsData = none ∧ rec.compositionData = none ∧
        rec.redditData = none ∧
        rec.imageUrl = some ("data:" ++ sampleImage.mimetype ++ ";base64," ++
          sampleImage.base64)) ∧
      (analyzeProductRoute threeEnv emptyStore 0 (some sampleImage) 5).2.1.productAnalyses.length
        = emptyStore.productAnalyses.length + threeCandidates.length :=
  C7_multi_candidate_upload threeEnv emptyStore 0 5 sampleImage threeCandidates
    rfl rfl (by decide) (by unfold freshIdsFor; decide)

/-! ## C9: concurrent EnsureFacet calls -/

/-- The read phase of `POST /api/analyze-ingredients`: everything the
handler does before its first suspension point (the `await` on the
adapter chain) — load the record and decide between 404, the cached slot,
and computing the facet. -/
inductive IngReadPhase where
  | missing
  | cached (d : IngredientsData)
  | compute (a : ProductAnalysis)
  deriving Repr, DecidableEq

/-- Decision taken by the read phase. -/
def ingReadPhase (st : Storage) (id : String) : IngReadPhase :=
  match mapGet id st.productAnalyses with
  | none => .missing
  | some a =>
    match a.ingredientsData with
    | some d => .cached d
    | none => .compute a

/-- The compute-write-respond phase (runs after the read phase, against
whatever store exists when the chain result arrives). -/
def ingFinishPhase (env : Env) (st : Storage) (id : String) (a : ProductAnalysis) :
    RouteResponse IngredientsData × Storage × List Call :=
  match ingredientsChain env a with
  | (.error _, calls) => (.serverError, st, calls)
  | (.ok v, calls) =>
    let upd := updateProductAnalysis st id { ingredientsData := some (some v) }
    let body :=
      match upd.2 with
      | some u => u.ingredientsData.getD v
      | none => v
    (.ok body, upd.1, calls)

/-- The sequential route is exactly the composition of the two phases. -/
theorem analyzeIngredientsRoute_phase_split (env : Env) (st : Storage) (id : String) :
    analyzeIngredientsRoute env st (some id)
      = (match ingReadPhase st id with
         | .missing => (.notFound, st, [])
         | .cached d => (.ok d, st, [])
         | .compute a => ingFinishPhase env st id a) := by
  simp only [analyzeIngredientsRoute, ingReadPhase, ingFinishPhase]
  cases mapGet id st.productAnalyses with
  | none => rfl
  | some a =>
    try dsimp only
    cases a.ingredientsData with
    | some d => rfl
    | none => rfl

/-- Two overlapped handlers for the same `(id, facet)`: both run their
read phase against the same store (each began before the other wrote —
the schedule read₁, read₂, compute₁, write₁, compute₂, write₂ permitted
by the handler's await structure), then each computes and writes in turn.
Returns the final store and all external calls. -/
def overlappedIngredientsRun (env : Env) (st : Storage) (id : String) :
    Storage × List Call :=
  match ingReadPhase st id with
  | .missing => (st, [])
  | .cached _ => (st, [])
  | .compute a =>
    let r1 := ingFinishPhase env st id a
    let r2 := ingFinishPhase env r1.2.1 id a
    (r2.2.1, r1.2.2 ++ r2.2.2)

theorem analyzeIngredients_calls_with_key (env : Env) (hkey : env.geminiKey = true) :
    (analyzeIngredients env).2 = [Call.gemIngredients] := by
  simp only [analyzeIngredients, hkey]
  cases env.ingredientsModel with
  | content p => cases p <;> rfl
  | failure rl => cases rl <;> rfl

theorem analyzeIngredientsRoute_calls_compute (env : Env) (st : Storage) (id : String)
    (a : ProductAnalysis) (h : mapGet id st.productAnalyses = some a)
    (hempty : a.ingredientsData = none) :
    (analyzeIngredientsRoute env st (some id)).2.2 = (ingredientsChain env a).2 := by
  simp only [analyzeIngredientsRoute, h, hempty]
  try dsimp only
  rcases hc : ingredientsChain env a with ⟨r, calls⟩
  cases r <;> rfl

/-- C9 counterexample: two overlapped ingredients requests that both read
the empty slot before either write invoke the Gemini ingredients adapter
twice — refuting at-most-one-in-flight-invocation. -/
theorem C9_counterexample_double_invocation :
    ¬ ((overlappedIngredientsRun sampleEnv samplePrimaryStore "pri1").2.count
        Call.gemIngredients ≤ 1) := by
  decide

/-- C9 amended: the code performs no in-flight deduplication — in the
overlapped schedule where both calls read the record before either write,
the primary adapter chain runs once per call (twice in total); the
at-most-once bound holds only for sequential calls whose first run
succeeds. -/
theorem C9_amended_no_inflight_dedup (env : Env) (st : Storage) (id : String)
    (a : ProductAnalysis) (h : mapGet id st.productAnalyses = some a)
    (hempty : a.ingredientsData = none) (hprim : a.isFallbackMode = false)
    (hkey : env.geminiKey = true) :
    (overlappedIngredientsRun env st id).2.count Call.gemIngredients = 2 ∧
    (∀ v, (analyzeIngredientsRoute env st (some id)).1 = RouteResponse.ok v →
      (twoIngredientsRunsCalls env st id).count Call.gemIngredients = 1) := by
  have hcalls : (ingredientsChain env a).2 = [Call.gemIngredients] := by
    rw [ingredientsChain_primary env a hprim]
    exact analyzeIngredients_calls_with_key env hkey
  constructor
  · have hread : ingReadPhase st id = .compute a := by
      simp [ingReadPhase, h, hempty]
    have hfin : ∀ st', (ingFinishPhase env st' id a).2.2 = (ingredientsChain env a).2 := by
      intro st'
      unfold ingFinishPhase
      rcases hc : ingredientsChain env a with ⟨r, calls⟩
      cases r <;> rfl
    simp only [overlappedIngredientsRun, hread]
    simp [hfin, hcalls]
  · intro v hv
    have h2 := ingredientsRoute_second_run env st id v hv
    unfold twoIngredientsRunsCalls
    dsimp only
    rw [analyzeIngredientsRoute_calls_compute env st id a h hempty, hcalls, h2]
    simp

/-- C9 witness: the overlapped and the sequential schedules at a concrete
record and environment. -/
theorem C9_amended_no_inflight_dedup_witness :
    (overlappedIngredientsRun sampleEnv samplePrimaryStore "pri1").2.count
        Call.gemIngredients = 2 ∧
    (twoIngredientsRunsCalls sampleEnv samplePrimaryStore "pri1").count
        Call.gemIngredients = 1 :=
  ⟨(C9_amended_no_inflight_dedup sampleEnv samplePrimaryStore "pri1" samplePrimaryRecord
      rfl rfl rfl rfl).1,
   (C9_amended_no_inflight_dedup sampleEnv samplePrimaryStore "pri1" samplePrimaryRecord
      rfl rfl rfl rfl).2
     ⟨[⟨"Sugar", "Moderate", "High sugar content"⟩]⟩ (by decide)⟩

/-! ## Barcode claims (C10) -/

theorem validateBarcodeChecksum_iff (s : String) :
    validateBarcodeChecksum s = true ↔
      ((digitsOf s).length = 12 ∧
        (digitsOf s).getD 11 0 = upcaCheckDigit ((digitsOf s).take 11)) ∨
      ((digitsOf s).length = 13 ∧
        (digitsOf s).getD 12 0 = ean13CheckDigit ((digitsOf s).take 12)) := by
  unfold validateBarcodeChecksum upcaCheckDigit ean13CheckDigit
  by_cases h12 : (digitsOf s).length = 12
  · simp [h12, altWeightSum_eq, eq_comm]
  · by_cases h13 : (digitsOf s).length = 13
    · simp [h12, h13, altWeightSum_eq, eq_comm]
    · simp [h12, h13]

/-- C10: `validateBarcodeChecksum` returns true for a string iff, after
removing all non-digit characters, exactly 12 or 13 digits remain and the
last digit equals the UPC-A (for 12 digits) or EAN-13 (for 13 digits)
check digit computed from the preceding digits; consequently the barcode
extracted by `extractProductInfoFromOCR` is non-null only when it passes
this checksum (for any possible regex-match result), and is null
otherwise. -/
theorem C10_barcode_checksum_characterization :
    (∀ s : String,
      validateBarcodeChecksum s = true ↔
        ((digitsOf s).length = 12 ∧
          (digitsOf s).getD 11 0 = upcaCheckDigit ((digitsOf s).take 11)) ∨
        ((digitsOf s).length = 13 ∧
          (digitsOf s).getD 12 0 = ean13CheckDigit ((digitsOf s).take 12))) ∧
    (∀ m b, barcodeFromOCRMatch m = some b → validateBarcodeChecksum b = true) ∧
    (∀ s, validateBarcodeChecksum (removeWhitespace s) = false →
      barcodeFromOCRMatch (some s) = none) := by
  refine ⟨validateBarcodeChecksum_iff, ?_, ?_⟩
  · intro m b h
    match m with
    | none => simp [barcodeFromOCRMatch] at h
    | some s =>
      simp only [barcodeFromOCRMatch] at h
      by_cases hv : validateBarcodeChecksum (removeWhitespace s) = true
      · simp only [if_pos hv, Option.some.injEq] at h
        rw [← h]
        exact hv
      · simp [hv] at h
  · intro s h
    simp [barcodeFromOCRMatch, h]

/-- C10 witness: a concrete valid UPC-A barcode is extracted and passes
the checksum. -/
theorem C10_witness_valid_upca :
    validateBarcodeChecksum "036000291452" = true :=
  C10_barcode_checksum_characterization.2.1 (some "036000291452") "036000291452" (by decide)

end ScanItKnowIt
